import Mathlib

/-!
Verification of the ical-property crate (src/lib.rs): a shallow embedding of
the scalar parsers (`parse_duration`, `parse_datetime`, the enum parsers) and
of the event builder `map_ical_event`, together with theorems settling the
specification claims.

External collaborators (chrono's `Local` time zone, the `dateparser` crate's
best-effort parser, and the `rrule` crate's `RRuleSet` parser) are modelled as
function parameters, since the source consumes them as opaque functions.
Machine integers that matter (`i64`, `u8`, `i32` overflow on `str::parse`)
are modelled with explicit range checks on `Nat`/`Int`.
-/

namespace IcalProperty2Proof

/-- Error values produced by the library.  The source uses `anyhow` string
errors; each constructor corresponds to one `anyhow!` site (or to a
propagated external error).  `panicked` models a Rust panic (e.g. a forced
`unwrap`), which is a crash, not a recoverable `Err`. -/
inductive Err where
  | invalidDuration
  | invalidStatus
  | invalidTransparency
  | invalidPriority
  | invalidSequence
  | unknownKey (name : String)
  | externalParse (msg : String)
  | panicked (msg : String)
  deriving Repr, DecidableEq

/-- Model of `chrono::NaiveDate`: a civil date, no time-of-day, no zone. -/
structure NaiveDate where
  y : Nat
  mo : Nat
  d : Nat
  deriving Repr, DecidableEq

/-- Model of `chrono::NaiveDateTime` (seconds precision, as used here). -/
structure NaiveDateTime where
  y : Nat
  mo : Nat
  d : Nat
  hh : Nat
  mi : Nat
  ss : Nat
  deriving Repr, DecidableEq

/-- Source enum `DateMaybeTime`: either an instant normalized to UTC
(`DateTime(DateTime<Utc>)`, carried here as the UTC civil reading) or a
plain date (`Date(NaiveDate)`). -/
inductive DateMaybeTime where
  | dateTime (utc : NaiveDateTime)
  | date (d : NaiveDate)
  deriving Repr, DecidableEq

/-- Model of `chrono::MappedLocalTime` (a.k.a. `LocalResult`), the result of
`NaiveDateTime::and_local_timezone`: no valid interpretation (DST gap),
exactly one, or two (DST fold).  `unwrap` panics unless it is `single`. -/
inductive MappedLocal (α : Type) where
  | absent
  | single (a : α)
  | ambiguous (a b : α)
  deriving Repr, DecidableEq

/-- Source enum `EventStatus`. -/
inductive EventStatus where
  | tentative
  | confirmed
  | cancelled
  deriving Repr, DecidableEq

/-- Source enum `EventTransparency`. -/
inductive EventTransparency where
  | opaqueIv
  | transparent
  deriving Repr, DecidableEq

/-- Model of `rrule::RRuleSet`, opaque to this crate: we only record the text
block it was parsed from. -/
structure RRuleSet where
  parsedFrom : String
  deriving Repr, DecidableEq

/-- `EventStatus::from_str`: uppercase, then match a fixed token set. -/
def EventStatus.fromStr (s : String) : Option EventStatus :=
  match s.toUpper with
  | "TENTATIVE" => some .tentative
  | "CONFIRMED" => some .confirmed
  | "CANCELLED" => some .cancelled
  | _ => none

/-- `EventTransparency::from_str`: uppercase, then match a fixed token set. -/
def EventTransparency.fromStr (s : String) : Option EventTransparency :=
  match s.toUpper with
  | "OPAQUE" => some .opaqueIv
  | "TRANSPARENT" => some .transparent
  | _ => none

/-! ### Numeric string parsing (Rust `str::parse` for `i64`, `u8`, `i32`) -/

/-- Numeric value of a decimal digit character. -/
def digitVal (c : Char) : Nat := c.toNat - 48

/-- Numeric value of a list of decimal digit characters (most significant
first), as accumulated by a decimal scanner. -/
def digitsVal (l : List Char) : Nat := l.foldl (fun a c => a * 10 + digitVal c) 0

/-- Largest `i64` value, `i64::MAX`. -/
def i64Max : Nat := 9223372036854775807

/-- `str::parse::<i64>().unwrap_or(0)` applied to a run of decimal digits
(which is what the `\d+` capture groups of `parse_duration` hand it): the
value if it fits an `i64`, otherwise the parse errors and `unwrap_or`
yields `0`. -/
def parseI64orZero (ds : List Char) : Int :=
  if digitsVal ds ≤ i64Max then (digitsVal ds : Int) else 0

/-- A nonempty all-digit character list parsed as a `Nat`. -/
def parseNatDigits (l : List Char) : Option Nat :=
  if l ≠ [] ∧ l.all Char.isDigit then some (digitsVal l) else none

/-- `str::parse::<u8>`: an optional leading `+`, then digits, value at most
255. -/
def parseU8 (s : String) : Option Nat :=
  let l := match s.data with
    | '+' :: r => r
    | r => r
  match parseNatDigits l with
  | some n => if n ≤ 255 then some n else none
  | none => none

/-- `str::parse::<i32>`: an optional sign, then digits, within `i32` range. -/
def parseI32 (s : String) : Option Int :=
  match s.data with
  | '-' :: r =>
    match parseNatDigits r with
    | some n => if n ≤ 2147483648 then some (-(n : Int)) else none
    | none => none
  | '+' :: r =>
    match parseNatDigits r with
    | some n => if n ≤ 2147483647 then some (n : Int) else none
    | none => none
  | r =>
    match parseNatDigits r with
    | some n => if n ≤ 2147483647 then some (n : Int) else none
    | none => none

/-! ### `parse_duration` -/

/-- Maximal-munch split of a leading run of decimal digits, as a regex `\d+`
scanner does. -/
def takeDigits : List Char → List Char × List Char
  | [] => ([], [])
  | c :: r =>
    if c.isDigit then
      let p := takeDigits r
      (c :: p.1, p.2)
    else ([], c :: r)

/-- One optional regex component `(?:(\d+)X)?`: if a nonempty digit run
immediately followed by the marker letter `x` is present, consume it and
return its `i64`-or-zero value; otherwise consume nothing. -/
def compOpt (x : Char) (cs : List Char) : Int × List Char :=
  let p := takeDigits cs
  match p.2 with
  | c :: r => if p.1 ≠ [] ∧ c = x then (parseI64orZero p.1, r) else (0, cs)
  | [] => (0, cs)

/-- The chrono `Duration` (`TimeDelta`) range, in whole seconds: a span must
fit in `i64::MAX` milliseconds, i.e. its seconds part lies in
`[-(i64::MAX / 1000), i64::MAX / 1000]` = `[-9223372036854775,
9223372036854775]` (our spans carry zero sub-second part, so the
millisecond remainder never matters). -/
def durMaxSecs : Int := 9223372036854775

/-- A chrono `Duration` construction or overflow-checked addition at `x`
whole seconds: the value when it is in range, and a panic (chrono's
`expect`) when it is not. -/
def checkedSecs (x : Int) : Except Err Int :=
  if -9223372036854775 ≤ x ∧ x ≤ 9223372036854775 then .ok x
  else .error (.panicked "TimeDelta out of bounds")

/-- The final expression of `parse_duration`:
`Duration::days(days) + Duration::hours(hours) + Duration::minutes(minutes)
+ Duration::seconds(seconds)`.  Each constructor checks the `TimeDelta`
range (panicking via `expect` when out of bounds), and each `+` is
overflow-checked with the same bound (panicking on overflow). -/
def durationSum (d h m s : Int) : Except Err Int :=
  match checkedSecs (d * 86400) with
  | .error e => .error e
  | .ok dd =>
    match checkedSecs (h * 3600) with
    | .error e => .error e
    | .ok hh =>
      match checkedSecs (m * 60) with
      | .error e => .error e
      | .ok mm =>
        match checkedSecs s with
        | .error e => .error e
        | .ok ss =>
          match checkedSecs (dd + hh) with
          | .error e => .error e
          | .ok x1 =>
            match checkedSecs (x1 + mm) with
            | .error e => .error e
            | .ok x2 => checkedSecs (x2 + ss)

/-- The regex part `T(?:(\d+)H)?(?:(\d+)M)?(?:(\d+)S)?$` after the `T`,
summed with the day component's contribution through the checked
`Duration` arithmetic. -/
def timeTail (dayv : Int) (r2 : List Char) : Except Err Int :=
  let ph := compOpt 'H' r2
  let pm := compOpt 'M' ph.2
  let ps := compOpt 'S' pm.2
  if ps.2 = [] then
    durationSum dayv ph.1 pm.1 ps.1
  else .error .invalidDuration

/-- The regex part after the leading `P`: an optional day component, then
either the end of input (the absent time components default to zero in the
same checked sum), or `T` and the time part. -/
def pdTail (r0 : List Char) : Except Err Int :=
  let pd := compOpt 'D' r0
  match pd.2 with
  | 'T' :: r2 => timeTail pd.1 r2
  | [] => durationSum pd.1 0 0 0
  | _ => .error .invalidDuration

/-- Source `parse_duration`: match the anchored regex
`^P(?:(\d+)D)?(?:T(?:(\d+)H)?(?:(\d+)M)?(?:(\d+)S)?)?$`, each captured
component parsed with `parse::<i64>().unwrap_or(0)`, and sum
`Duration::days + hours + minutes + seconds` (modelled as total seconds).
A non-match is the `anyhow!("Invalid duration format")` error. -/
def parse_duration (s : String) : Except Err Int :=
  match s.data with
  | 'P' :: r0 => pdTail r0
  | _ => .error .invalidDuration

/-! ### `parse_datetime` -/

/-- Whether `y` is a leap year (proleptic Gregorian, as chrono). -/
def isLeap (y : Nat) : Bool := y % 4 == 0 && (y % 100 != 0 || y % 400 == 0)

/-- Number of days of month `m` in year `y`. -/
def daysInMonth (y m : Nat) : Nat :=
  if m = 2 then (if isLeap y then 29 else 28)
  else if m = 4 ∨ m = 6 ∨ m = 9 ∨ m = 11 then 30
  else 31

/-- Whether year/month/day form a valid civil date. -/
def validYMD (y m d : Nat) : Bool :=
  1 ≤ m && m ≤ 12 && 1 ≤ d && d ≤ daysInMonth y m

/-- Whether hour/minute/second form a valid time of day. -/
def validHMS (h m s : Nat) : Bool := h ≤ 23 && m ≤ 59 && s ≤ 59

/-- `NaiveDate::parse_from_str(s, "%Y%m%d")`: exactly eight digits forming a
valid calendar date; the whole string must be consumed. -/
def parseYMD (s : String) : Option NaiveDate :=
  match s.data with
  | [y1, y2, y3, y4, m1, m2, d1, d2] =>
    if ([y1, y2, y3, y4, m1, m2, d1, d2].all Char.isDigit) then
      let y := digitsVal [y1, y2, y3, y4]
      let mo := digitsVal [m1, m2]
      let d := digitsVal [d1, d2]
      if validYMD y mo d then some ⟨y, mo, d⟩ else none
    else none
  | _ => none

/-- Core of the `%Y%m%dT%H%M%S` shape on a 15-character list. -/
def parseDTcore (cs : List Char) : Option NaiveDateTime :=
  match cs with
  | [y1, y2, y3, y4, m1, m2, d1, d2, t, h1, h2, i1, i2, s1, s2] =>
    if t = 'T' ∧ ([y1, y2, y3, y4, m1, m2, d1, d2, h1, h2, i1, i2, s1, s2].all Char.isDigit) then
      let y := digitsVal [y1, y2, y3, y4]
      let mo := digitsVal [m1, m2]
      let d := digitsVal [d1, d2]
      let hh := digitsVal [h1, h2]
      let mi := digitsVal [i1, i2]
      let ss := digitsVal [s1, s2]
      if validYMD y mo d && validHMS hh mi ss then some ⟨y, mo, d, hh, mi, ss⟩
      else none
    else none
  | _ => none

/-- `NaiveDateTime::parse_from_str(s, "%Y%m%dT%H%M%SZ")`. -/
def parseDTZ (s : String) : Option NaiveDateTime :=
  match s.data.reverse with
  | 'Z' :: rest => parseDTcore rest.reverse
  | _ => none

/-- `NaiveDateTime::parse_from_str(s, "%Y%m%dT%H%M%S")`. -/
def parseDT (s : String) : Option NaiveDateTime := parseDTcore s.data

/-- Source `parse_datetime`.  `localTz` models
`NaiveDateTime::and_local_timezone(Local)` followed by `.to_utc()` on the
single case (it returns the UTC civil reading resolved by the process's
local time zone); `dateparse` models the `dateparser` crate's best-effort
parser.  Rule order is that of the source: `%Y%m%d`, then `%Y%m%dT%H%M%SZ`,
then `%Y%m%dT%H%M%S` resolved via the local zone (with a forced `unwrap`),
then the best-effort fallback. -/
def parse_datetime (localTz : NaiveDateTime → MappedLocal NaiveDateTime)
    (dateparse : String → Except Err NaiveDateTime) (s : String) :
    Except Err DateMaybeTime :=
  match parseYMD s with
  | some d => .ok (.date d)
  | none =>
    match parseDTZ s with
    | some dt => .ok (.dateTime dt)
    | none =>
      match parseDT s with
      | some dt =>
        match localTz dt with
        | .single u => .ok (.dateTime u)
        | _ => .error (.panicked "No such local time")
      | none =>
        match dateparse s with
        | .ok dt => .ok (.dateTime dt)
        | .error e => .error e

/-! ### The `Event` aggregate and the builder `map_ical_event` -/

/-- Source struct `Event` (RFC 5545 event with typed fields).  `duration` is
a `chrono::Duration` modelled as total seconds; `rrule` is the opaque
`RRuleSet`; the `end` field is named `end_` because `end` is a Lean
keyword. -/
structure Event where
  uid : Option String := none
  created : Option DateMaybeTime := none
  summary : Option String := none
  start : Option DateMaybeTime := none
  end_ : Option DateMaybeTime := none
  duration : Option Int := none
  location : Option String := none
  description : Option String := none
  status : Option EventStatus := none
  transparency : Option EventTransparency := none
  categories : Option (List String) := none
  attendees : Option (List String) := none
  organizer : Option String := none
  priority : Option Nat := none
  sequence : Option Int := none
  dtstamp : Option DateMaybeTime := none
  recurrenceId : Option DateMaybeTime := none
  rrule : Option RRuleSet := none
  comment : Option String := none
  attach : Option (List String) := none
  alarms : Option (List String) := none
  lastModified : Option DateMaybeTime := none
  deriving Repr, DecidableEq

/-- One property record of a parsed `IcalEvent`: a name and an optional
value. -/
structure IcalProp where
  name : String
  value : Option String
  deriving Repr, DecidableEq

/-- The `OptionVecPush` trait's `push`: start a one-element vector if absent,
otherwise append. -/
def pushOpt {α : Type} (o : Option (List α)) (x : α) : Option (List α) :=
  match o with
  | none => some [x]
  | some l => some (l ++ [x])

/-- Membership in the five-name array `["RDATE", "RRULE", "EXDATE", "EXRULE",
"DTSTART"]` whose `NAME:value` lines are buffered for the recurrence
engine, written as the unfolded `contains` chain in source order. -/
def isRRuleKey (k : String) : Bool :=
  k == "RDATE" || k == "RRULE" || k == "EXDATE" || k == "EXRULE" || k == "DTSTART"

/-- Mutable state of the `map_ical_event` loop: the event under construction,
the `rrule_lines` buffer and the `has_rrules` flag. -/
structure BuildState where
  event : Event
  rruleLines : Option (List String)
  hasRrules : Bool
  deriving Repr, DecidableEq

/-- Initial loop state (`Event::default()`, empty buffer, flag unset). -/
def initState : BuildState := ⟨{}, none, false⟩

/-- The statement before the dispatch `match`: if the key is one of the five
recurrence names, push the reconstructed `key:value` line onto the buffer. -/
def bufferStep (st : BuildState) (key value : String) : BuildState :=
  if isRRuleKey key then
    { st with rruleLines := pushOpt st.rruleLines (key ++ ":" ++ value) }
  else st

/-- The vendor-extension guard `key.starts_with("X-")`, written on the
character list so that it evaluates inside the kernel. -/
def startsWithXDash (k : String) : Bool :=
  match k.data with
  | 'X' :: '-' :: _ => true
  | _ => false

/-- The arms of the dispatch `match` of `map_ical_event`, one constructor per
arm. -/
inductive KeyKind where
  | uid | summary | dtstart | dtend | created | duration | location
  | description | status | lastModified | transparency | categories
  | attendee | organizer | priority | sequence | dtstamp | recurrenceId
  | rrule | rdateLike | comment | attach | alarm | xExt | benign | unknown
  deriving Repr, DecidableEq

/-- Which dispatch arm a property name selects, in the source's arm order
(the literal arms are mutually disjoint, the `X-` guard precedes the
`TRANSP`/`CLASS` arm, and the final arm is the unknown-property error). -/
def keyKind (k : String) : KeyKind :=
  if k = "UID" then .uid
  else if k = "SUMMARY" then .summary
  else if k = "DTSTART" then .dtstart
  else if k = "DTEND" then .dtend
  else if k = "CREATED" then .created
  else if k = "DURATION" then .duration
  else if k = "LOCATION" then .location
  else if k = "DESCRIPTION" then .description
  else if k = "STATUS" then .status
  else if k = "LAST-MODIFIED" then .lastModified
  else if k = "TRANSPARENCY" then .transparency
  else if k = "CATEGORIES" then .categories
  else if k = "ATTENDEE" then .attendee
  else if k = "ORGANIZER" then .organizer
  else if k = "PRIORITY" then .priority
  else if k = "SEQUENCE" then .sequence
  else if k = "DTSTAMP" then .dtstamp
  else if k = "RECURRENCE-ID" then .recurrenceId
  else if k = "RRULE" then .rrule
  else if k = "RDATE" ∨ k = "EXRULE" ∨ k = "EXDATE" then .rdateLike
  else if k = "COMMENT" then .comment
  else if k = "ATTACH" then .attach
  else if k = "ALARM" then .alarm
  else if startsWithXDash k then .xExt
  else if k = "TRANSP" ∨ k = "CLASS" then .benign
  else .unknown

/-- One iteration of the `map_ical_event` loop body on property `p`:
skip valueless properties, buffer recurrence lines, then dispatch on the
property name exactly as the source `match`, producing the next state or
the first error. -/
def handleProp (localTz : NaiveDateTime → MappedLocal NaiveDateTime)
    (dateparse : String → Except Err NaiveDateTime)
    (st : BuildState) (p : IcalProp) : Except Err BuildState :=
  match p.value with
  | none => .ok st
  | some value =>
    let key := p.name
    let st := bufferStep st key value
    match keyKind key with
    | .uid => .ok { st with event := { st.event with uid := some value } }
    | .summary => .ok { st with event := { st.event with summary := some value } }
    | .dtstart =>
      match parse_datetime localTz dateparse value with
      | .ok dt => .ok { st with event := { st.event with start := some dt } }
      | .error e => .error e
    | .dtend =>
      match parse_datetime localTz dateparse value with
      | .ok dt => .ok { st with event := { st.event with end_ := some dt } }
      | .error e => .error e
    | .created =>
      match parse_datetime localTz dateparse value with
      | .ok dt => .ok { st with event := { st.event with created := some dt } }
      | .error e => .error e
    | .duration =>
      match parse_duration value with
      | .ok du => .ok { st with event := { st.event with duration := some du } }
      | .error e => .error e
    | .location => .ok { st with event := { st.event with location := some value } }
    | .description => .ok { st with event := { st.event with description := some value } }
    | .status =>
      match EventStatus.fromStr value with
      | some v => .ok { st with event := { st.event with status := some v } }
      | none => .error .invalidStatus
    | .lastModified =>
      match parse_datetime localTz dateparse value with
      | .ok dt => .ok { st with event := { st.event with lastModified := some dt } }
      | .error e => .error e
    | .transparency =>
      match EventTransparency.fromStr value with
      | some v => .ok { st with event := { st.event with transparency := some v } }
      | none => .error .invalidTransparency
    | .categories =>
      .ok { st with event := { st.event with categories := pushOpt st.event.categories value } }
    | .attendee =>
      .ok { st with event := { st.event with attendees := pushOpt st.event.attendees value } }
    | .organizer => .ok { st with event := { st.event with organizer := some value } }
    | .priority =>
      match parseU8 value with
      | some v => .ok { st with event := { st.event with priority := some v } }
      | none => .error .invalidPriority
    | .sequence =>
      match parseI32 value with
      | some v => .ok { st with event := { st.event with sequence := some v } }
      | none => .error .invalidSequence
    | .dtstamp =>
      match parse_datetime localTz dateparse value with
      | .ok dt => .ok { st with event := { st.event with dtstamp := some dt } }
      | .error e => .error e
    | .recurrenceId =>
      match parse_datetime localTz dateparse value with
      | .ok dt => .ok { st with event := { st.event with recurrenceId := some dt } }
      | .error e => .error e
    | .rrule => .ok { st with hasRrules := true }
    | .rdateLike => .ok st
    | .comment => .ok { st with event := { st.event with comment := some value } }
    | .attach =>
      .ok { st with event := { st.event with attach := pushOpt st.event.attach value } }
    | .alarm =>
      .ok { st with event := { st.event with alarms := pushOpt st.event.alarms value } }
    | .xExt => .ok st
    | .benign => .ok st
    | .unknown => .error (.unknownKey key)

/-- The `for prop in input.properties` loop: thread the state through
`handleProp`, stopping at the first error. -/
def buildLoop (localTz : NaiveDateTime → MappedLocal NaiveDateTime)
    (dateparse : String → Except Err NaiveDateTime) :
    BuildState → List IcalProp → Except Err BuildState
  | st, [] => .ok st
  | st, p :: ps =>
    match handleProp localTz dateparse st p with
    | .ok st1 => buildLoop localTz dateparse st1 ps
    | .error e => .error e

/-- Source `map_ical_event`.  `rrparse` models `RRuleSet::from_str` of the
`rrule` crate.  After the loop, if `has_rrules` is set, `rrule_lines`
is force-unwrapped (a panic if it were `None`), joined with newlines and
handed to the recurrence engine; a parse failure propagates. -/
def map_ical_event (localTz : NaiveDateTime → MappedLocal NaiveDateTime)
    (dateparse : String → Except Err NaiveDateTime)
    (rrparse : String → Except Err RRuleSet)
    (input : List IcalProp) : Except Err Event :=
  match buildLoop localTz dateparse initState input with
  | .error e => .error e
  | .ok st =>
    if st.hasRrules then
      match st.rruleLines with
      | none => .error (.panicked "called unwrap on a None value")
      | some l =>
        match rrparse (String.intercalate "\n" l) with
        | .ok r => .ok { st.event with rrule := some r }
        | .error e => .error e
    else .ok st.event

/-! ### Concrete instances of the external collaborators, for witnesses -/

/-- A local time zone in which every civil time has exactly one UTC reading,
equal to itself (offset zero); the simplest lawful `Local` instance. -/
def utcLocalTz : NaiveDateTime → MappedLocal NaiveDateTime := fun dt => .single dt

/-- A local time zone with a daylight-saving gap: civil times on
2024-03-31 between 02:00 and 02:59:59 do not exist (as in Europe/Berlin's
spring-forward); all other civil times resolve uniquely. -/
def gapLocalTz : NaiveDateTime → MappedLocal NaiveDateTime := fun dt =>
  if dt.y = 2024 ∧ dt.mo = 3 ∧ dt.d = 31 ∧ dt.hh = 2 then .absent else .single dt

/-- A best-effort date parser instance that always fails. -/
def noFallback : String → Except Err NaiveDateTime :=
  fun _ => .error (.externalParse "dateparser failed")

/-- A recurrence engine instance that accepts every text block. -/
def okRRule : String → Except Err RRuleSet := fun s => .ok ⟨s⟩

/-! ### Specification-side descriptions of the builder's per-key effects -/

/-- The values property `p` contributes under key `key`: its value when the
names match and a value is present, nothing otherwise. -/
def valsOf (p : IcalProp) (key : String) : List String :=
  match p.value with
  | none => []
  | some v => if p.name == key then [v] else []

/-- The sequence of values carried by properties named `key`, in list order,
duplicates retained, valueless occurrences skipped. -/
def valuedValues (key : String) (ps : List IcalProp) : List String :=
  ps.foldr (fun p acc => valsOf p key ++ acc) []

/-- The reconstructed `NAME:value` recurrence lines property `p` contributes
(zero or one). -/
def recLinesOf (p : IcalProp) : List String :=
  match p.value with
  | none => []
  | some v => if isRRuleKey p.name then [p.name ++ ":" ++ v] else []

/-- All reconstructed recurrence lines of a property list, in order. -/
def recurrenceLines (ps : List IcalProp) : List String :=
  ps.foldr (fun p acc => recLinesOf p ++ acc) []

/-- Whether the list holds an `RRULE` property with a value. -/
def hasValuedRRule (ps : List IcalProp) : Bool :=
  ps.any (fun p => p.name == "RRULE" && p.value.isSome)

/-- Last-write-wins accumulator: fold a value list over an optional scalar,
each value overwriting the previous content. -/
def lastD (o : Option String) (l : List String) : Option String :=
  l.foldl (fun _ v => some v) o

/-- A list as an optional vector: `none` when empty. -/
def optOfList {α : Type} : List α → Option (List α)
  | [] => none
  | x :: l => some (x :: l)

/-- The known-benign property names: any `X-` vendor extension, plus
`TRANSP` and `CLASS`. -/
def benignKey (k : String) : Bool :=
  startsWithXDash k || k == "TRANSP" || k == "CLASS"

/-- The property names the builder dispatch handles (including the buffered
recurrence names and the benign literals). -/
def recognizedKeys : List String :=
  ["UID", "SUMMARY", "DTSTART", "DTEND", "CREATED", "DURATION", "LOCATION",
   "DESCRIPTION", "STATUS", "LAST-MODIFIED", "TRANSPARENCY", "CATEGORIES",
   "ATTENDEE", "ORGANIZER", "PRIORITY", "SEQUENCE", "DTSTAMP", "RECURRENCE-ID",
   "RRULE", "RDATE", "EXRULE", "EXDATE", "COMMENT", "ATTACH", "ALARM",
   "TRANSP", "CLASS"]

/-- A property name outside the recognized set: not a handled RFC token,
not an `X-` extension. -/
def isUnknownKey (k : String) : Bool :=
  !(recognizedKeys.contains k) && !(startsWithXDash k)

/-- Whether a single property is processed without error (this is
independent of the loop state, see `handleProp_error_congr`). -/
def propOk (localTz : NaiveDateTime → MappedLocal NaiveDateTime)
    (dateparse : String → Except Err NaiveDateTime) (p : IcalProp) : Bool :=
  match handleProp localTz dateparse initState p with
  | .ok _ => true
  | .error _ => false

/-- Whether an `Except` is a success. -/
def isOkE {α : Type} : Except Err α → Bool
  | .ok _ => true
  | .error _ => false

/-! ### The duration grammar, from the specification -/

/-- Whether a character list does not begin with a decimal digit. -/
def headNotDigit : List Char → Bool
  | [] => true
  | c :: _ => !c.isDigit

/-- One optional grammar component: a nonempty digit run followed by its
marker letter, or nothing. -/
def optPart (x : Char) : Option (List Char) → List Char
  | none => []
  | some ds => ds ++ [x]

/-- Side condition of a component: when present, the run is nonempty and all
digits. -/
def optRun : Option (List Char) → Prop
  | none => True
  | some ds => ds ≠ [] ∧ ds.all Char.isDigit = true

/-- The optional time block `T[nH][nM][nS]`. -/
def timeBlock :
    Option (Option (List Char) × Option (List Char) × Option (List Char)) → List Char
  | none => []
  | some (h, m, s) => 'T' :: (optPart 'H' h ++ optPart 'M' m ++ optPart 'S' s)

/-- Side conditions of the time block's components. -/
def optRunT :
    Option (Option (List Char) × Option (List Char) × Option (List Char)) → Prop
  | none => True
  | some (h, m, s) => optRun h ∧ optRun m ∧ optRun s

/-- The specification's duration grammar, anchored at both ends:
`P`, an optional `nD` day component, and an optional `T[nH][nM][nS]`
time block, with every present component a nonempty run of digits. -/
def DurationGrammar (s : String) : Prop :=
  ∃ d t, optRun d ∧ optRunT t ∧ s.data = 'P' :: (optPart 'D' d ++ timeBlock t)

/-- The numeric value a component contributes: zero when absent, and the
`i64`-or-zero reading of its digit run when present (an `i64`-overflowing
run is silently clamped to zero by `unwrap_or(0)`). -/
def compVal : Option (List Char) → Int
  | none => 0
  | some ds => parseI64orZero ds

/-- The hour value of the optional time block. -/
def timeValH :
    Option (Option (List Char) × Option (List Char) × Option (List Char)) → Int
  | none => 0
  | some (h, _, _) => compVal h

/-- The minute value of the optional time block. -/
def timeValM :
    Option (Option (List Char) × Option (List Char) × Option (List Char)) → Int
  | none => 0
  | some (_, m, _) => compVal m

/-- The second value of the optional time block. -/
def timeValS :
    Option (Option (List Char) × Option (List Char) × Option (List Char)) → Int
  | none => 0
  | some (_, _, s) => compVal s

/-- The duration grammar restricted to the strings whose clamped component
total fits the chrono `Duration` range — the region where the constructors
and additions do not panic. -/
def BoundedDurationGrammar (s : String) : Prop :=
  ∃ d t, optRun d ∧ optRunT t ∧ s.data = 'P' :: (optPart 'D' d ++ timeBlock t) ∧
    compVal d * 86400 + timeValH t * 3600 + timeValM t * 60 + timeValS t ≤ durMaxSecs

/-! ### Concrete property lists and events for the claim witnesses -/

/-- Concrete property list with a valued `RRULE`, for the C1 witness. -/
def c1props : List IcalProp := [{ name := "RRULE", value := some "FREQ=WEEKLY" }]

/-- The event built from `c1props`. -/
def c1event : Event := { rrule := some ⟨"RRULE:FREQ=WEEKLY"⟩ }

/-- Concrete property list with DTSTART and RRULE, for the C3 witness. -/
def c3props : List IcalProp :=
  [{ name := "DTSTART", value := some "20240101" },
   { name := "RRULE", value := some "FREQ=DAILY" }]

/-- The event built from `c3props`: the date anchor plus the assembled
recurrence specification. -/
def c3event : Event :=
  { start := some (.date ⟨2024, 1, 1⟩),
    rrule := some ⟨"DTSTART:20240101\nRRULE:FREQ=DAILY"⟩ }

/-- A valid property preceding the unknown one, for the C4 witness. -/
def c4before : List IcalProp := [{ name := "UID", value := some "u1" }]

/-- The offending unknown property, for the C4 witness. -/
def c4unknown : IcalProp := { name := "FOO", value := some "bar" }

/-- Two SUMMARY properties in order, for the C7 witness. -/
def c7props : List IcalProp :=
  [{ name := "SUMMARY", value := some "first" },
   { name := "SUMMARY", value := some "second" }]

/-- The event built from `c7props`: the second summary wins. -/
def c7event : Event := { summary := some "second" }

/-- CATEGORIES `A`, `B`, `A` in order, for the C8 witness. -/
def c8props : List IcalProp :=
  [{ name := "CATEGORIES", value := some "A" },
   { name := "CATEGORIES", value := some "B" },
   { name := "CATEGORIES", value := some "A" }]

/-- The event built from `c8props`: order and duplicates preserved. -/
def c8event : Event := { categories := some ["A", "B", "A"] }


/-! ### Effect of one loop iteration -/

/-- A name classified differently from `lit` cannot equal `lit`. -/
theorem keyKind_ne_lit {k lit : String} {x : KeyKind} (hk : keyKind k = x)
    (hlit : keyKind lit ≠ x) : k ≠ lit :=
  fun he => hlit (he ▸ hk)

/-- Only `"UID"` selects the `uid` arm. -/
theorem keyKind_uid_inv {k : String} (h : keyKind k = .uid) : k = "UID" := by
  unfold keyKind at h
  by_cases h1 : k = "UID"
  · exact h1
  rw [if_neg h1] at h
  by_cases h2 : k = "SUMMARY"
  · rw [if_pos h2] at h; exact absurd h (by decide)
  rw [if_neg h2] at h
  by_cases h3 : k = "DTSTART"
  · rw [if_pos h3] at h; exact absurd h (by decide)
  rw [if_neg h3] at h
  by_cases h4 : k = "DTEND"
  · rw [if_pos h4] at h; exact absurd h (by decide)
  rw [if_neg h4] at h
  by_cases h5 : k = "CREATED"
  · rw [if_pos h5] at h; exact absurd h (by decide)
  rw [if_neg h5] at h
  by_cases h6 : k = "DURATION"
  · rw [if_pos h6] at h; exact absurd h (by decide)
  rw [if_neg h6] at h
  by_cases h7 : k = "LOCATION"
  · rw [if_pos h7] at h; exact absurd h (by decide)
  rw [if_neg h7] at h
  by_cases h8 : k = "DESCRIPTION"
  · rw [if_pos h8] at h; exact absurd h (by decide)
  rw [if_neg h8] at h
  by_cases h9 : k = "STATUS"
  · rw [if_pos h9] at h; exact absurd h (by decide)
  rw [if_neg h9] at h
  by_cases h10 : k = "LAST-MODIFIED"
  · rw [if_pos h10] at h; exact absurd h (by decide)
  rw [if_neg h10] at h
  by_cases h11 : k = "TRANSPARENCY"
  · rw [if_pos h11] at h; exact absurd h (by decide)
  rw [if_neg h11] at h
  by_cases h12 : k = "CATEGORIES"
  · rw [if_pos h12] at h; exact absurd h (by decide)
  rw [if_neg h12] at h
  by_cases h13 : k = "ATTENDEE"
  · rw [if_pos h13] at h; exact absurd h (by decide)
  rw [if_neg h13] at h
  by_cases h14 : k = "ORGANIZER"
  · rw [if_pos h14] at h; exact absurd h (by decide)
  rw [if_neg h14] at h
  by_cases h15 : k = "PRIORITY"
  · rw [if_pos h15] at h; exact absurd h (by decide)
  rw [if_neg h15] at h
  by_cases h16 : k = "SEQUENCE"
  · rw [if_pos h16] at h; exact absurd h (by decide)
  rw [if_neg h16] at h
  by_cases h17 : k = "DTSTAMP"
  · rw [if_pos h17] at h; exact absurd h (by decide)
  rw [if_neg h17] at h
  by_cases h18 : k = "RECURRENCE-ID"
  · rw [if_pos h18] at h; exact absurd h (by decide)
  rw [if_neg h18] at h
  by_cases h19 : k = "RRULE"
  · rw [if_pos h19] at h; exact absurd h (by decide)
  rw [if_neg h19] at h
  by_cases h20 : k = "RDATE" ∨ k = "EXRULE" ∨ k = "EXDATE"
  · rw [if_pos h20] at h; exact absurd h (by decide)
  rw [if_neg h20] at h
  by_cases h21 : k = "COMMENT"
  · rw [if_pos h21] at h; exact absurd h (by decide)
  rw [if_neg h21] at h
  by_cases h22 : k = "ATTACH"
  · rw [if_pos h22] at h; exact absurd h (by decide)
  rw [if_neg h22] at h
  by_cases h23 : k = "ALARM"
  · rw [if_pos h23] at h; exact absurd h (by decide)
  rw [if_neg h23] at h
  by_cases h24 : startsWithXDash k = true
  · rw [if_pos h24] at h; exact absurd h (by decide)
  rw [if_neg h24] at h
  by_cases h25 : k = "TRANSP" ∨ k = "CLASS"
  · rw [if_pos h25] at h; exact absurd h (by decide)
  rw [if_neg h25] at h
  exact absurd h (by decide)

/-- Only `"SUMMARY"` selects the `summary` arm. -/
theorem keyKind_summary_inv {k : String} (h : keyKind k = .summary) : k = "SUMMARY" := by
  unfold keyKind at h
  by_cases h1 : k = "UID"
  · rw [if_pos h1] at h; exact absurd h (by decide)
  rw [if_neg h1] at h
  by_cases h2 : k = "SUMMARY"
  · exact h2
  rw [if_neg h2] at h
  by_cases h3 : k = "DTSTART"
  · rw [if_pos h3] at h; exact absurd h (by decide)
  rw [if_neg h3] at h
  by_cases h4 : k = "DTEND"
  · rw [if_pos h4] at h; exact absurd h (by decide)
  rw [if_neg h4] at h
  by_cases h5 : k = "CREATED"
  · rw [if_pos h5] at h; exact absurd h (by decide)
  rw [if_neg h5] at h
  by_cases h6 : k = "DURATION"
  · rw [if_pos h6] at h; exact absurd h (by decide)
  rw [if_neg h6] at h
  by_cases h7 : k = "LOCATION"
  · rw [if_pos h7] at h; exact absurd h (by decide)
  rw [if_neg h7] at h
  by_cases h8 : k = "DESCRIPTION"
  · rw [if_pos h8] at h; exact absurd h (by decide)
  rw [if_neg h8] at h
  by_cases h9 : k = "STATUS"
  · rw [if_pos h9] at h; exact absurd h (by decide)
  rw [if_neg h9] at h
  by_cases h10 : k = "LAST-MODIFIED"
  · rw [if_pos h10] at h; exact absurd h (by decide)
  rw [if_neg h10] at h
  by_cases h11 : k = "TRANSPARENCY"
  · rw [if_pos h11] at h; exact absurd h (by decide)
  rw [if_neg h11] at h
  by_cases h12 : k = "CATEGORIES"
  · rw [if_pos h12] at h; exact absurd h (by decide)
  rw [if_neg h12] at h
  by_cases h13 : k = "ATTENDEE"
  · rw [if_pos h13] at h; exact absurd h (by decide)
  rw [if_neg h13] at h
  by_cases h14 : k = "ORGANIZER"
  · rw [if_pos h14] at h; exact absurd h (by decide)
  rw [if_neg h14] at h
  by_cases h15 : k = "PRIORITY"
  · rw [if_pos h15] at h; exact absurd h (by decide)
  rw [if_neg h15] at h
  by_cases h16 : k = "SEQUENCE"
  · rw [if_pos h16] at h; exact absurd h (by decide)
  rw [if_neg h16] at h
  by_cases h17 : k = "DTSTAMP"
  · rw [if_pos h17] at h; exact absurd h (by decide)
  rw [if_neg h17] at h
  by_cases h18 : k = "RECURRENCE-ID"
  · rw [if_pos h18] at h; exact absurd h (by decide)
  rw [if_neg h18] at h
  by_cases h19 : k = "RRULE"
  · rw [if_pos h19] at h; exact absurd h (by decide)
  rw [if_neg h19] at h
  by_cases h20 : k = "RDATE" ∨ k = "EXRULE" ∨ k = "EXDATE"
  · rw [if_pos h20] at h; exact absurd h (by decide)
  rw [if_neg h20] at h
  by_cases h21 : k = "COMMENT"
  · rw [if_pos h21] at h; exact absurd h (by decide)
  rw [if_neg h21] at h
  by_cases h22 : k = "ATTACH"
  · rw [if_pos h22] at h; exact absurd h (by decide)
  rw [if_neg h22] at h
  by_cases h23 : k = "ALARM"
  · rw [if_pos h23] at h; exact absurd h (by decide)
  rw [if_neg h23] at h
  by_cases h24 : startsWithXDash k = true
  · rw [if_pos h24] at h; exact absurd h (by decide)
  rw [if_neg h24] at h
  by_cases h25 : k = "TRANSP" ∨ k = "CLASS"
  · rw [if_pos h25] at h; exact absurd h (by decide)
  rw [if_neg h25] at h
  exact absurd h (by decide)

/-- Only `"LOCATION"` selects the `location` arm. -/
theorem keyKind_location_inv {k : String} (h : keyKind k = .location) : k = "LOCATION" := by
  unfold keyKind at h
  by_cases h1 : k = "UID"
  · rw [if_pos h1] at h; exact absurd h (by decide)
  rw [if_neg h1] at h
  by_cases h2 : k = "SUMMARY"
  · rw [if_pos h2] at h; exact absurd h (by decide)
  rw [if_neg h2] at h
  by_cases h3 : k = "DTSTART"
  · rw [if_pos h3] at h; exact absurd h (by decide)
  rw [if_neg h3] at h
  by_cases h4 : k = "DTEND"
  · rw [if_pos h4] at h; exact absurd h (by decide)
  rw [if_neg h4] at h
  by_cases h5 : k = "CREATED"
  · rw [if_pos h5] at h; exact absurd h (by decide)
  rw [if_neg h5] at h
  by_cases h6 : k = "DURATION"
  · rw [if_pos h6] at h; exact absurd h (by decide)
  rw [if_neg h6] at h
  by_cases h7 : k = "LOCATION"
  · exact h7
  rw [if_neg h7] at h
  by_cases h8 : k = "DESCRIPTION"
  · rw [if_pos h8] at h; exact absurd h (by decide)
  rw [if_neg h8] at h
  by_cases h9 : k = "STATUS"
  · rw [if_pos h9] at h; exact absurd h (by decide)
  rw [if_neg h9] at h
  by_cases h10 : k = "LAST-MODIFIED"
  · rw [if_pos h10] at h; exact absurd h (by decide)
  rw [if_neg h10] at h
  by_cases h11 : k = "TRANSPARENCY"
  · rw [if_pos h11] at h; exact absurd h (by decide)
  rw [if_neg h11] at h
  by_cases h12 : k = "CATEGORIES"
  · rw [if_pos h12] at h; exact absurd h (by decide)
  rw [if_neg h12] at h
  by_cases h13 : k = "ATTENDEE"
  · rw [if_pos h13] at h; exact absurd h (by decide)
  rw [if_neg h13] at h
  by_cases h14 : k = "ORGANIZER"
  · rw [if_pos h14] at h; exact absurd h (by decide)
  rw [if_neg h14] at h
  by_cases h15 : k = "PRIORITY"
  · rw [if_pos h15] at h; exact absurd h (by decide)
  rw [if_neg h15] at h
  by_cases h16 : k = "SEQUENCE"
  · rw [if_pos h16] at h; exact absurd h (by decide)
  rw [if_neg h16] at h
  by_cases h17 : k = "DTSTAMP"
  · rw [if_pos h17] at h; exact absurd h (by decide)
  rw [if_neg h17] at h
  by_cases h18 : k = "RECURRENCE-ID"
  · rw [if_pos h18] at h; exact absurd h (by decide)
  rw [if_neg h18] at h
  by_cases h19 : k = "RRULE"
  · rw [if_pos h19] at h; exact absurd h (by decide)
  rw [if_neg h19] at h
  by_cases h20 : k = "RDATE" ∨ k = "EXRULE" ∨ k = "EXDATE"
  · rw [if_pos h20] at h; exact absurd h (by decide)
  rw [if_neg h20] at h
  by_cases h21 : k = "COMMENT"
  · rw [if_pos h21] at h; exact absurd h (by decide)
  rw [if_neg h21] at h
  by_cases h22 : k = "ATTACH"
  · rw [if_pos h22] at h; exact absurd h (by decide)
  rw [if_neg h22] at h
  by_cases h23 : k = "ALARM"
  · rw [if_pos h23] at h; exact absurd h (by decide)
  rw [if_neg h23] at h
  by_cases h24 : startsWithXDash k = true
  · rw [if_pos h24] at h; exact absurd h (by decide)
  rw [if_neg h24] at h
  by_cases h25 : k = "TRANSP" ∨ k = "CLASS"
  · rw [if_pos h25] at h; exact absurd h (by decide)
  rw [if_neg h25] at h
  exact absurd h (by decide)

/-- Only `"DESCRIPTION"` selects the `description` arm. -/
theorem keyKind_description_inv {k : String} (h : keyKind k = .description) : k = "DESCRIPTION" := by
  unfold keyKind at h
  by_cases h1 : k = "UID"
  · rw [if_pos h1] at h; exact absurd h (by decide)
  rw [if_neg h1] at h
  by_cases h2 : k = "SUMMARY"
  · rw [if_pos h2] at h; exact absurd h (by decide)
  rw [if_neg h2] at h
  by_cases h3 : k = "DTSTART"
  · rw [if_pos h3] at h; exact absurd h (by decide)
  rw [if_neg h3] at h
  by_cases h4 : k = "DTEND"
  · rw [if_pos h4] at h; exact absurd h (by decide)
  rw [if_neg h4] at h
  by_cases h5 : k = "CREATED"
  · rw [if_pos h5] at h; exact absurd h (by decide)
  rw [if_neg h5] at h
  by_cases h6 : k = "DURATION"
  · rw [if_pos h6] at h; exact absurd h (by decide)
  rw [if_neg h6] at h
  by_cases h7 : k = "LOCATION"
  · rw [if_pos h7] at h; exact absurd h (by decide)
  rw [if_neg h7] at h
  by_cases h8 : k = "DESCRIPTION"
  · exact h8
  rw [if_neg h8] at h
  by_cases h9 : k = "STATUS"
  · rw [if_pos h9] at h; exact absurd h (by decide)
  rw [if_neg h9] at h
  by_cases h10 : k = "LAST-MODIFIED"
  · rw [if_pos h10] at h; exact absurd h (by decide)
  rw [if_neg h10] at h
  by_cases h11 : k = "TRANSPARENCY"
  · rw [if_pos h11] at h; exact absurd h (by decide)
  rw [if_neg h11] at h
  by_cases h12 : k = "CATEGORIES"
  · rw [if_pos h12] at h; exact absurd h (by decide)
  rw [if_neg h12] at h
  by_cases h13 : k = "ATTENDEE"
  · rw [if_pos h13] at h; exact absurd h (by decide)
  rw [if_neg h13] at h
  by_cases h14 : k = "ORGANIZER"
  · rw [if_pos h14] at h; exact absurd h (by decide)
  rw [if_neg h14] at h
  by_cases h15 : k = "PRIORITY"
  · rw [if_pos h15] at h; exact absurd h (by decide)
  rw [if_neg h15] at h
  by_cases h16 : k = "SEQUENCE"
  · rw [if_pos h16] at h; exact absurd h (by decide)
  rw [if_neg h16] at h
  by_cases h17 : k = "DTSTAMP"
  · rw [if_pos h17] at h; exact absurd h (by decide)
  rw [if_neg h17] at h
  by_cases h18 : k = "RECURRENCE-ID"
  · rw [if_pos h18] at h; exact absurd h (by decide)
  rw [if_neg h18] at h
  by_cases h19 : k = "RRULE"
  · rw [if_pos h19] at h; exact absurd h (by decide)
  rw [if_neg h19] at h
  by_cases h20 : k = "RDATE" ∨ k = "EXRULE" ∨ k = "EXDATE"
  · rw [if_pos h20] at h; exact absurd h (by decide)
  rw [if_neg h20] at h
  by_cases h21 : k = "COMMENT"
  · rw [if_pos h21] at h; exact absurd h (by decide)
  rw [if_neg h21] at h
  by_cases h22 : k = "ATTACH"
  · rw [if_pos h22] at h; exact absurd h (by decide)
  rw [if_neg h22] at h
  by_cases h23 : k = "ALARM"
  · rw [if_pos h23] at h; exact absurd h (by decide)
  rw [if_neg h23] at h
  by_cases h24 : startsWithXDash k = true
  · rw [if_pos h24] at h; exact absurd h (by decide)
  rw [if_neg h24] at h
  by_cases h25 : k = "TRANSP" ∨ k = "CLASS"
  · rw [if_pos h25] at h; exact absurd h (by decide)
  rw [if_neg h25] at h
  exact absurd h (by decide)

/-- Only `"ORGANIZER"` selects the `organizer` arm. -/
theorem keyKind_organizer_inv {k : String} (h : keyKind k = .organizer) : k = "ORGANIZER" := by
  unfold keyKind at h
  by_cases h1 : k = "UID"
  · rw [if_pos h1] at h; exact absurd h (by decide)
  rw [if_neg h1] at h
  by_cases h2 : k = "SUMMARY"
  · rw [if_pos h2] at h; exact absurd h (by decide)
  rw [if_neg h2] at h
  by_cases h3 : k = "DTSTART"
  · rw [if_pos h3] at h; exact absurd h (by decide)
  rw [if_neg h3] at h
  by_cases h4 : k = "DTEND"
  · rw [if_pos h4] at h; exact absurd h (by decide)
  rw [if_neg h4] at h
  by_cases h5 : k = "CREATED"
  · rw [if_pos h5] at h; exact absurd h (by decide)
  rw [if_neg h5] at h
  by_cases h6 : k = "DURATION"
  · rw [if_pos h6] at h; exact absurd h (by decide)
  rw [if_neg h6] at h
  by_cases h7 : k = "LOCATION"
  · rw [if_pos h7] at h; exact absurd h (by decide)
  rw [if_neg h7] at h
  by_cases h8 : k = "DESCRIPTION"
  · rw [if_pos h8] at h; exact absurd h (by decide)
  rw [if_neg h8] at h
  by_cases h9 : k = "STATUS"
  · rw [if_pos h9] at h; exact absurd h (by decide)
  rw [if_neg h9] at h
  by_cases h10 : k = "LAST-MODIFIED"
  · rw [if_pos h10] at h; exact absurd h (by decide)
  rw [if_neg h10] at h
  by_cases h11 : k = "TRANSPARENCY"
  · rw [if_pos h11] at h; exact absurd h (by decide)
  rw [if_neg h11] at h
  by_cases h12 : k = "CATEGORIES"
  · rw [if_pos h12] at h; exact absurd h (by decide)
  rw [if_neg h12] at h
  by_cases h13 : k = "ATTENDEE"
  · rw [if_pos h13] at h; exact absurd h (by decide)
  rw [if_neg h13] at h
  by_cases h14 : k = "ORGANIZER"
  · exact h14
  rw [if_neg h14] at h
  by_cases h15 : k = "PRIORITY"
  · rw [if_pos h15] at h; exact absurd h (by decide)
  rw [if_neg h15] at h
  by_cases h16 : k = "SEQUENCE"
  · rw [if_pos h16] at h; exact absurd h (by decide)
  rw [if_neg h16] at h
  by_cases h17 : k = "DTSTAMP"
  · rw [if_pos h17] at h; exact absurd h (by decide)
  rw [if_neg h17] at h
  by_cases h18 : k = "RECURRENCE-ID"
  · rw [if_pos h18] at h; exact absurd h (by decide)
  rw [if_neg h18] at h
  by_cases h19 : k = "RRULE"
  · rw [if_pos h19] at h; exact absurd h (by decide)
  rw [if_neg h19] at h
  by_cases h20 : k = "RDATE" ∨ k = "EXRULE" ∨ k = "EXDATE"
  · rw [if_pos h20] at h; exact absurd h (by decide)
  rw [if_neg h20] at h
  by_cases h21 : k = "COMMENT"
  · rw [if_pos h21] at h; exact absurd h (by decide)
  rw [if_neg h21] at h
  by_cases h22 : k = "ATTACH"
  · rw [if_pos h22] at h; exact absurd h (by decide)
  rw [if_neg h22] at h
  by_cases h23 : k = "ALARM"
  · rw [if_pos h23] at h; exact absurd h (by decide)
  rw [if_neg h23] at h
  by_cases h24 : startsWithXDash k = true
  · rw [if_pos h24] at h; exact absurd h (by decide)
  rw [if_neg h24] at h
  by_cases h25 : k = "TRANSP" ∨ k = "CLASS"
  · rw [if_pos h25] at h; exact absurd h (by decide)
  rw [if_neg h25] at h
  exact absurd h (by decide)

/-- Only `"COMMENT"` selects the `comment` arm. -/
theorem keyKind_comment_inv {k : String} (h : keyKind k = .comment) : k = "COMMENT" := by
  unfold keyKind at h
  by_cases h1 : k = "UID"
  · rw [if_pos h1] at h; exact absurd h (by decide)
  rw [if_neg h1] at h
  by_cases h2 : k = "SUMMARY"
  · rw [if_pos h2] at h; exact absurd h (by decide)
  rw [if_neg h2] at h
  by_cases h3 : k = "DTSTART"
  · rw [if_pos h3] at h; exact absurd h (by decide)
  rw [if_neg h3] at h
  by_cases h4 : k = "DTEND"
  · rw [if_pos h4] at h; exact absurd h (by decide)
  rw [if_neg h4] at h
  by_cases h5 : k = "CREATED"
  · rw [if_pos h5] at h; exact absurd h (by decide)
  rw [if_neg h5] at h
  by_cases h6 : k = "DURATION"
  · rw [if_pos h6] at h; exact absurd h (by decide)
  rw [if_neg h6] at h
  by_cases h7 : k = "LOCATION"
  · rw [if_pos h7] at h; exact absurd h (by decide)
  rw [if_neg h7] at h
  by_cases h8 : k = "DESCRIPTION"
  · rw [if_pos h8] at h; exact absurd h (by decide)
  rw [if_neg h8] at h
  by_cases h9 : k = "STATUS"
  · rw [if_pos h9] at h; exact absurd h (by decide)
  rw [if_neg h9] at h
  by_cases h10 : k = "LAST-MODIFIED"
  · rw [if_pos h10] at h; exact absurd h (by decide)
  rw [if_neg h10] at h
  by_cases h11 : k = "TRANSPARENCY"
  · rw [if_pos h11] at h; exact absurd h (by decide)
  rw [if_neg h11] at h
  by_cases h12 : k = "CATEGORIES"
  · rw [if_pos h12] at h; exact absurd h (by decide)
  rw [if_neg h12] at h
  by_cases h13 : k = "ATTENDEE"
  · rw [if_pos h13] at h; exact absurd h (by decide)
  rw [if_neg h13] at h
  by_cases h14 : k = "ORGANIZER"
  · rw [if_pos h14] at h; exact absurd h (by decide)
  rw [if_neg h14] at h
  by_cases h15 : k = "PRIORITY"
  · rw [if_pos h15] at h; exact absurd h (by decide)
  rw [if_neg h15] at h
  by_cases h16 : k = "SEQUENCE"
  · rw [if_pos h16] at h; exact absurd h (by decide)
  rw [if_neg h16] at h
  by_cases h17 : k = "DTSTAMP"
  · rw [if_pos h17] at h; exact absurd h (by decide)
  rw [if_neg h17] at h
  by_cases h18 : k = "RECURRENCE-ID"
  · rw [if_pos h18] at h; exact absurd h (by decide)
  rw [if_neg h18] at h
  by_cases h19 : k = "RRULE"
  · rw [if_pos h19] at h; exact absurd h (by decide)
  rw [if_neg h19] at h
  by_cases h20 : k = "RDATE" ∨ k = "EXRULE" ∨ k = "EXDATE"
  · rw [if_pos h20] at h; exact absurd h (by decide)
  rw [if_neg h20] at h
  by_cases h21 : k = "COMMENT"
  · exact h21
  rw [if_neg h21] at h
  by_cases h22 : k = "ATTACH"
  · rw [if_pos h22] at h; exact absurd h (by decide)
  rw [if_neg h22] at h
  by_cases h23 : k = "ALARM"
  · rw [if_pos h23] at h; exact absurd h (by decide)
  rw [if_neg h23] at h
  by_cases h24 : startsWithXDash k = true
  · rw [if_pos h24] at h; exact absurd h (by decide)
  rw [if_neg h24] at h
  by_cases h25 : k = "TRANSP" ∨ k = "CLASS"
  · rw [if_pos h25] at h; exact absurd h (by decide)
  rw [if_neg h25] at h
  exact absurd h (by decide)

/-- Only `"CATEGORIES"` selects the `categories` arm. -/
theorem keyKind_categories_inv {k : String} (h : keyKind k = .categories) : k = "CATEGORIES" := by
  unfold keyKind at h
  by_cases h1 : k = "UID"
  · rw [if_pos h1] at h; exact absurd h (by decide)
  rw [if_neg h1] at h
  by_cases h2 : k = "SUMMARY"
  · rw [if_pos h2] at h; exact absurd h (by decide)
  rw [if_neg h2] at h
  by_cases h3 : k = "DTSTART"
  · rw [if_pos h3] at h; exact absurd h (by decide)
  rw [if_neg h3] at h
  by_cases h4 : k = "DTEND"
  · rw [if_pos h4] at h; exact absurd h (by decide)
  rw [if_neg h4] at h
  by_cases h5 : k = "CREATED"
  · rw [if_pos h5] at h; exact absurd h (by decide)
  rw [if_neg h5] at h
  by_cases h6 : k = "DURATION"
  · rw [if_pos h6] at h; exact absurd h (by decide)
  rw [if_neg h6] at h
  by_cases h7 : k = "LOCATION"
  · rw [if_pos h7] at h; exact absurd h (by decide)
  rw [if_neg h7] at h
  by_cases h8 : k = "DESCRIPTION"
  · rw [if_pos h8] at h; exact absurd h (by decide)
  rw [if_neg h8] at h
  by_cases h9 : k = "STATUS"
  · rw [if_pos h9] at h; exact absurd h (by decide)
  rw [if_neg h9] at h
  by_cases h10 : k = "LAST-MODIFIED"
  · rw [if_pos h10] at h; exact absurd h (by decide)
  rw [if_neg h10] at h
  by_cases h11 : k = "TRANSPARENCY"
  · rw [if_pos h11] at h; exact absurd h (by decide)
  rw [if_neg h11] at h
  by_cases h12 : k = "CATEGORIES"
  · exact h12
  rw [if_neg h12] at h
  by_cases h13 : k = "ATTENDEE"
  · rw [if_pos h13] at h; exact absurd h (by decide)
  rw [if_neg h13] at h
  by_cases h14 : k = "ORGANIZER"
  · rw [if_pos h14] at h; exact absurd h (by decide)
  rw [if_neg h14] at h
  by_cases h15 : k = "PRIORITY"
  · rw [if_pos h15] at h; exact absurd h (by decide)
  rw [if_neg h15] at h
  by_cases h16 : k = "SEQUENCE"
  · rw [if_pos h16] at h; exact absurd h (by decide)
  rw [if_neg h16] at h
  by_cases h17 : k = "DTSTAMP"
  · rw [if_pos h17] at h; exact absurd h (by decide)
  rw [if_neg h17] at h
  by_cases h18 : k = "RECURRENCE-ID"
  · rw [if_pos h18] at h; exact absurd h (by decide)
  rw [if_neg h18] at h
  by_cases h19 : k = "RRULE"
  · rw [if_pos h19] at h; exact absurd h (by decide)
  rw [if_neg h19] at h
  by_cases h20 : k = "RDATE" ∨ k = "EXRULE" ∨ k = "EXDATE"
  · rw [if_pos h20] at h; exact absurd h (by decide)
  rw [if_neg h20] at h
  by_cases h21 : k = "COMMENT"
  · rw [if_pos h21] at h; exact absurd h (by decide)
  rw [if_neg h21] at h
  by_cases h22 : k = "ATTACH"
  · rw [if_pos h22] at h; exact absurd h (by decide)
  rw [if_neg h22] at h
  by_cases h23 : k = "ALARM"
  · rw [if_pos h23] at h; exact absurd h (by decide)
  rw [if_neg h23] at h
  by_cases h24 : startsWithXDash k = true
  · rw [if_pos h24] at h; exact absurd h (by decide)
  rw [if_neg h24] at h
  by_cases h25 : k = "TRANSP" ∨ k = "CLASS"
  · rw [if_pos h25] at h; exact absurd h (by decide)
  rw [if_neg h25] at h
  exact absurd h (by decide)

/-- Only `"ATTENDEE"` selects the `attendee` arm. -/
theorem keyKind_attendee_inv {k : String} (h : keyKind k = .attendee) : k = "ATTENDEE" := by
  unfold keyKind at h
  by_cases h1 : k = "UID"
  · rw [if_pos h1] at h; exact absurd h (by decide)
  rw [if_neg h1] at h
  by_cases h2 : k = "SUMMARY"
  · rw [if_pos h2] at h; exact absurd h (by decide)
  rw [if_neg h2] at h
  by_cases h3 : k = "DTSTART"
  · rw [if_pos h3] at h; exact absurd h (by decide)
  rw [if_neg h3] at h
  by_cases h4 : k = "DTEND"
  · rw [if_pos h4] at h; exact absurd h (by decide)
  rw [if_neg h4] at h
  by_cases h5 : k = "CREATED"
  · rw [if_pos h5] at h; exact absurd h (by decide)
  rw [if_neg h5] at h
  by_cases h6 : k = "DURATION"
  · rw [if_pos h6] at h; exact absurd h (by decide)
  rw [if_neg h6] at h
  by_cases h7 : k = "LOCATION"
  · rw [if_pos h7] at h; exact absurd h (by decide)
  rw [if_neg h7] at h
  by_cases h8 : k = "DESCRIPTION"
  · rw [if_pos h8] at h; exact absurd h (by decide)
  rw [if_neg h8] at h
  by_cases h9 : k = "STATUS"
  · rw [if_pos h9] at h; exact absurd h (by decide)
  rw [if_neg h9] at h
  by_cases h10 : k = "LAST-MODIFIED"
  · rw [if_pos h10] at h; exact absurd h (by decide)
  rw [if_neg h10] at h
  by_cases h11 : k = "TRANSPARENCY"
  · rw [if_pos h11] at h; exact absurd h (by decide)
  rw [if_neg h11] at h
  by_cases h12 : k = "CATEGORIES"
  · rw [if_pos h12] at h; exact absurd h (by decide)
  rw [if_neg h12] at h
  by_cases h13 : k = "ATTENDEE"
  · exact h13
  rw [if_neg h13] at h
  by_cases h14 : k = "ORGANIZER"
  · rw [if_pos h14] at h; exact absurd h (by decide)
  rw [if_neg h14] at h
  by_cases h15 : k = "PRIORITY"
  · rw [if_pos h15] at h; exact absurd h (by decide)
  rw [if_neg h15] at h
  by_cases h16 : k = "SEQUENCE"
  · rw [if_pos h16] at h; exact absurd h (by decide)
  rw [if_neg h16] at h
  by_cases h17 : k = "DTSTAMP"
  · rw [if_pos h17] at h; exact absurd h (by decide)
  rw [if_neg h17] at h
  by_cases h18 : k = "RECURRENCE-ID"
  · rw [if_pos h18] at h; exact absurd h (by decide)
  rw [if_neg h18] at h
  by_cases h19 : k = "RRULE"
  · rw [if_pos h19] at h; exact absurd h (by decide)
  rw [if_neg h19] at h
  by_cases h20 : k = "RDATE" ∨ k = "EXRULE" ∨ k = "EXDATE"
  · rw [if_pos h20] at h; exact absurd h (by decide)
  rw [if_neg h20] at h
  by_cases h21 : k = "COMMENT"
  · rw [if_pos h21] at h; exact absurd h (by decide)
  rw [if_neg h21] at h
  by_cases h22 : k = "ATTACH"
  · rw [if_pos h22] at h; exact absurd h (by decide)
  rw [if_neg h22] at h
  by_cases h23 : k = "ALARM"
  · rw [if_pos h23] at h; exact absurd h (by decide)
  rw [if_neg h23] at h
  by_cases h24 : startsWithXDash k = true
  · rw [if_pos h24] at h; exact absurd h (by decide)
  rw [if_neg h24] at h
  by_cases h25 : k = "TRANSP" ∨ k = "CLASS"
  · rw [if_pos h25] at h; exact absurd h (by decide)
  rw [if_neg h25] at h
  exact absurd h (by decide)

/-- Only `"ATTACH"` selects the `attach` arm. -/
theorem keyKind_attach_inv {k : String} (h : keyKind k = .attach) : k = "ATTACH" := by
  unfold keyKind at h
  by_cases h1 : k = "UID"
  · rw [if_pos h1] at h; exact absurd h (by decide)
  rw [if_neg h1] at h
  by_cases h2 : k = "SUMMARY"
  · rw [if_pos h2] at h; exact absurd h (by decide)
  rw [if_neg h2] at h
  by_cases h3 : k = "DTSTART"
  · rw [if_pos h3] at h; exact absurd h (by decide)
  rw [if_neg h3] at h
  by_cases h4 : k = "DTEND"
  · rw [if_pos h4] at h; exact absurd h (by decide)
  rw [if_neg h4] at h
  by_cases h5 : k = "CREATED"
  · rw [if_pos h5] at h; exact absurd h (by decide)
  rw [if_neg h5] at h
  by_cases h6 : k = "DURATION"
  · rw [if_pos h6] at h; exact absurd h (by decide)
  rw [if_neg h6] at h
  by_cases h7 : k = "LOCATION"
  · rw [if_pos h7] at h; exact absurd h (by decide)
  rw [if_neg h7] at h
  by_cases h8 : k = "DESCRIPTION"
  · rw [if_pos h8] at h; exact absurd h (by decide)
  rw [if_neg h8] at h
  by_cases h9 : k = "STATUS"
  · rw [if_pos h9] at h; exact absurd h (by decide)
  rw [if_neg h9] at h
  by_cases h10 : k = "LAST-MODIFIED"
  · rw [if_pos h10] at h; exact absurd h (by decide)
  rw [if_neg h10] at h
  by_cases h11 : k = "TRANSPARENCY"
  · rw [if_pos h11] at h; exact absurd h (by decide)
  rw [if_neg h11] at h
  by_cases h12 : k = "CATEGORIES"
  · rw [if_pos h12] at h; exact absurd h (by decide)
  rw [if_neg h12] at h
  by_cases h13 : k = "ATTENDEE"
  · rw [if_pos h13] at h; exact absurd h (by decide)
  rw [if_neg h13] at h
  by_cases h14 : k = "ORGANIZER"
  · rw [if_pos h14] at h; exact absurd h (by decide)
  rw [if_neg h14] at h
  by_cases h15 : k = "PRIORITY"
  · rw [if_pos h15] at h; exact absurd h (by decide)
  rw [if_neg h15] at h
  by_cases h16 : k = "SEQUENCE"
  · rw [if_pos h16] at h; exact absurd h (by decide)
  rw [if_neg h16] at h
  by_cases h17 : k = "DTSTAMP"
  · rw [if_pos h17] at h; exact absurd h (by decide)
  rw [if_neg h17] at h
  by_cases h18 : k = "RECURRENCE-ID"
  · rw [if_pos h18] at h; exact absurd h (by decide)
  rw [if_neg h18] at h
  by_cases h19 : k = "RRULE"
  · rw [if_pos h19] at h; exact absurd h (by decide)
  rw [if_neg h19] at h
  by_cases h20 : k = "RDATE" ∨ k = "EXRULE" ∨ k = "EXDATE"
  · rw [if_pos h20] at h; exact absurd h (by decide)
  rw [if_neg h20] at h
  by_cases h21 : k = "COMMENT"
  · rw [if_pos h21] at h; exact absurd h (by decide)
  rw [if_neg h21] at h
  by_cases h22 : k = "ATTACH"
  · exact h22
  rw [if_neg h22] at h
  by_cases h23 : k = "ALARM"
  · rw [if_pos h23] at h; exact absurd h (by decide)
  rw [if_neg h23] at h
  by_cases h24 : startsWithXDash k = true
  · rw [if_pos h24] at h; exact absurd h (by decide)
  rw [if_neg h24] at h
  by_cases h25 : k = "TRANSP" ∨ k = "CLASS"
  · rw [if_pos h25] at h; exact absurd h (by decide)
  rw [if_neg h25] at h
  exact absurd h (by decide)

/-- Only `"ALARM"` selects the `alarm` arm. -/
theorem keyKind_alarm_inv {k : String} (h : keyKind k = .alarm) : k = "ALARM" := by
  unfold keyKind at h
  by_cases h1 : k = "UID"
  · rw [if_pos h1] at h; exact absurd h (by decide)
  rw [if_neg h1] at h
  by_cases h2 : k = "SUMMARY"
  · rw [if_pos h2] at h; exact absurd h (by decide)
  rw [if_neg h2] at h
  by_cases h3 : k = "DTSTART"
  · rw [if_pos h3] at h; exact absurd h (by decide)
  rw [if_neg h3] at h
  by_cases h4 : k = "DTEND"
  · rw [if_pos h4] at h; exact absurd h (by decide)
  rw [if_neg h4] at h
  by_cases h5 : k = "CREATED"
  · rw [if_pos h5] at h; exact absurd h (by decide)
  rw [if_neg h5] at h
  by_cases h6 : k = "DURATION"
  · rw [if_pos h6] at h; exact absurd h (by decide)
  rw [if_neg h6] at h
  by_cases h7 : k = "LOCATION"
  · rw [if_pos h7] at h; exact absurd h (by decide)
  rw [if_neg h7] at h
  by_cases h8 : k = "DESCRIPTION"
  · rw [if_pos h8] at h; exact absurd h (by decide)
  rw [if_neg h8] at h
  by_cases h9 : k = "STATUS"
  · rw [if_pos h9] at h; exact absurd h (by decide)
  rw [if_neg h9] at h
  by_cases h10 : k = "LAST-MODIFIED"
  · rw [if_pos h10] at h; exact absurd h (by decide)
  rw [if_neg h10] at h
  by_cases h11 : k = "TRANSPARENCY"
  · rw [if_pos h11] at h; exact absurd h (by decide)
  rw [if_neg h11] at h
  by_cases h12 : k = "CATEGORIES"
  · rw [if_pos h12] at h; exact absurd h (by decide)
  rw [if_neg h12] at h
  by_cases h13 : k = "ATTENDEE"
  · rw [if_pos h13] at h; exact absurd h (by decide)
  rw [if_neg h13] at h
  by_cases h14 : k = "ORGANIZER"
  · rw [if_pos h14] at h; exact absurd h (by decide)
  rw [if_neg h14] at h
  by_cases h15 : k = "PRIORITY"
  · rw [if_pos h15] at h; exact absurd h (by decide)
  rw [if_neg h15] at h
  by_cases h16 : k = "SEQUENCE"
  · rw [if_pos h16] at h; exact absurd h (by decide)
  rw [if_neg h16] at h
  by_cases h17 : k = "DTSTAMP"
  · rw [if_pos h17] at h; exact absurd h (by decide)
  rw [if_neg h17] at h
  by_cases h18 : k = "RECURRENCE-ID"
  · rw [if_pos h18] at h; exact absurd h (by decide)
  rw [if_neg h18] at h
  by_cases h19 : k = "RRULE"
  · rw [if_pos h19] at h; exact absurd h (by decide)
  rw [if_neg h19] at h
  by_cases h20 : k = "RDATE" ∨ k = "EXRULE" ∨ k = "EXDATE"
  · rw [if_pos h20] at h; exact absurd h (by decide)
  rw [if_neg h20] at h
  by_cases h21 : k = "COMMENT"
  · rw [if_pos h21] at h; exact absurd h (by decide)
  rw [if_neg h21] at h
  by_cases h22 : k = "ATTACH"
  · rw [if_pos h22] at h; exact absurd h (by decide)
  rw [if_neg h22] at h
  by_cases h23 : k = "ALARM"
  · exact h23
  rw [if_neg h23] at h
  by_cases h24 : startsWithXDash k = true
  · rw [if_pos h24] at h; exact absurd h (by decide)
  rw [if_neg h24] at h
  by_cases h25 : k = "TRANSP" ∨ k = "CLASS"
  · rw [if_pos h25] at h; exact absurd h (by decide)
  rw [if_neg h25] at h
  exact absurd h (by decide)

/-- Only `"RRULE"` selects the `rrule` arm. -/
theorem keyKind_rrule_inv {k : String} (h : keyKind k = .rrule) : k = "RRULE" := by
  unfold keyKind at h
  by_cases h1 : k = "UID"
  · rw [if_pos h1] at h; exact absurd h (by decide)
  rw [if_neg h1] at h
  by_cases h2 : k = "SUMMARY"
  · rw [if_pos h2] at h; exact absurd h (by decide)
  rw [if_neg h2] at h
  by_cases h3 : k = "DTSTART"
  · rw [if_pos h3] at h; exact absurd h (by decide)
  rw [if_neg h3] at h
  by_cases h4 : k = "DTEND"
  · rw [if_pos h4] at h; exact absurd h (by decide)
  rw [if_neg h4] at h
  by_cases h5 : k = "CREATED"
  · rw [if_pos h5] at h; exact absurd h (by decide)
  rw [if_neg h5] at h
  by_cases h6 : k = "DURATION"
  · rw [if_pos h6] at h; exact absurd h (by decide)
  rw [if_neg h6] at h
  by_cases h7 : k = "LOCATION"
  · rw [if_pos h7] at h; exact absurd h (by decide)
  rw [if_neg h7] at h
  by_cases h8 : k = "DESCRIPTION"
  · rw [if_pos h8] at h; exact absurd h (by decide)
  rw [if_neg h8] at h
  by_cases h9 : k = "STATUS"
  · rw [if_pos h9] at h; exact absurd h (by decide)
  rw [if_neg h9] at h
  by_cases h10 : k = "LAST-MODIFIED"
  · rw [if_pos h10] at h; exact absurd h (by decide)
  rw [if_neg h10] at h
  by_cases h11 : k = "TRANSPARENCY"
  · rw [if_pos h11] at h; exact absurd h (by decide)
  rw [if_neg h11] at h
  by_cases h12 : k = "CATEGORIES"
  · rw [if_pos h12] at h; exact absurd h (by decide)
  rw [if_neg h12] at h
  by_cases h13 : k = "ATTENDEE"
  · rw [if_pos h13] at h; exact absurd h (by decide)
  rw [if_neg h13] at h
  by_cases h14 : k = "ORGANIZER"
  · rw [if_pos h14] at h; exact absurd h (by decide)
  rw [if_neg h14] at h
  by_cases h15 : k = "PRIORITY"
  · rw [if_pos h15] at h; exact absurd h (by decide)
  rw [if_neg h15] at h
  by_cases h16 : k = "SEQUENCE"
  · rw [if_pos h16] at h; exact absurd h (by decide)
  rw [if_neg h16] at h
  by_cases h17 : k = "DTSTAMP"
  · rw [if_pos h17] at h; exact absurd h (by decide)
  rw [if_neg h17] at h
  by_cases h18 : k = "RECURRENCE-ID"
  · rw [if_pos h18] at h; exact absurd h (by decide)
  rw [if_neg h18] at h
  by_cases h19 : k = "RRULE"
  · exact h19
  rw [if_neg h19] at h
  by_cases h20 : k = "RDATE" ∨ k = "EXRULE" ∨ k = "EXDATE"
  · rw [if_pos h20] at h; exact absurd h (by decide)
  rw [if_neg h20] at h
  by_cases h21 : k = "COMMENT"
  · rw [if_pos h21] at h; exact absurd h (by decide)
  rw [if_neg h21] at h
  by_cases h22 : k = "ATTACH"
  · rw [if_pos h22] at h; exact absurd h (by decide)
  rw [if_neg h22] at h
  by_cases h23 : k = "ALARM"
  · rw [if_pos h23] at h; exact absurd h (by decide)
  rw [if_neg h23] at h
  by_cases h24 : startsWithXDash k = true
  · rw [if_pos h24] at h; exact absurd h (by decide)
  rw [if_neg h24] at h
  by_cases h25 : k = "TRANSP" ∨ k = "CLASS"
  · rw [if_pos h25] at h; exact absurd h (by decide)
  rw [if_neg h25] at h
  exact absurd h (by decide)

/-- A name's contribution under a scalar key, expressed through the arm it
selects (here: `UID`). -/
theorem valsOf_kind_uid (p : IcalProp) (v : String) (hv : p.value = some v) :
    valsOf p "UID" = if keyKind p.name = .uid then [v] else [] := by
  unfold valsOf; rw [hv]
  by_cases h : p.name = "UID"
  · simp [h, keyKind]
  · have h2 : keyKind p.name ≠ .uid := fun hk => h (keyKind_uid_inv hk)
    simp [h, h2]

/-- As `valsOf_kind_uid`, for `SUMMARY`. -/
theorem valsOf_kind_summary (p : IcalProp) (v : String) (hv : p.value = some v) :
    valsOf p "SUMMARY" = if keyKind p.name = .summary then [v] else [] := by
  unfold valsOf; rw [hv]
  by_cases h : p.name = "SUMMARY"
  · simp [h, keyKind]
  · have h2 : keyKind p.name ≠ .summary := fun hk => h (keyKind_summary_inv hk)
    simp [h, h2]

/-- As `valsOf_kind_uid`, for `LOCATION`. -/
theorem valsOf_kind_location (p : IcalProp) (v : String) (hv : p.value = some v) :
    valsOf p "LOCATION" = if keyKind p.name = .location then [v] else [] := by
  unfold valsOf; rw [hv]
  by_cases h : p.name = "LOCATION"
  · simp [h, keyKind]
  · have h2 : keyKind p.name ≠ .location := fun hk => h (keyKind_location_inv hk)
    simp [h, h2]

/-- As `valsOf_kind_uid`, for `DESCRIPTION`. -/
theorem valsOf_kind_description (p : IcalProp) (v : String) (hv : p.value = some v) :
    valsOf p "DESCRIPTION" = if keyKind p.name = .description then [v] else [] := by
  unfold valsOf; rw [hv]
  by_cases h : p.name = "DESCRIPTION"
  · simp [h, keyKind]
  · have h2 : keyKind p.name ≠ .description := fun hk => h (keyKind_description_inv hk)
    simp [h, h2]

/-- As `valsOf_kind_uid`, for `ORGANIZER`. -/
theorem valsOf_kind_organizer (p : IcalProp) (v : String) (hv : p.value = some v) :
    valsOf p "ORGANIZER" = if keyKind p.name = .organizer then [v] else [] := by
  unfold valsOf; rw [hv]
  by_cases h : p.name = "ORGANIZER"
  · simp [h, keyKind]
  · have h2 : keyKind p.name ≠ .organizer := fun hk => h (keyKind_organizer_inv hk)
    simp [h, h2]

/-- As `valsOf_kind_uid`, for `COMMENT`. -/
theorem valsOf_kind_comment (p : IcalProp) (v : String) (hv : p.value = some v) :
    valsOf p "COMMENT" = if keyKind p.name = .comment then [v] else [] := by
  unfold valsOf; rw [hv]
  by_cases h : p.name = "COMMENT"
  · simp [h, keyKind]
  · have h2 : keyKind p.name ≠ .comment := fun hk => h (keyKind_comment_inv hk)
    simp [h, h2]

/-- As `valsOf_kind_uid`, for `CATEGORIES`. -/
theorem valsOf_kind_categories (p : IcalProp) (v : String) (hv : p.value = some v) :
    valsOf p "CATEGORIES" = if keyKind p.name = .categories then [v] else [] := by
  unfold valsOf; rw [hv]
  by_cases h : p.name = "CATEGORIES"
  · simp [h, keyKind]
  · have h2 : keyKind p.name ≠ .categories := fun hk => h (keyKind_categories_inv hk)
    simp [h, h2]

/-- As `valsOf_kind_uid`, for `ATTENDEE`. -/
theorem valsOf_kind_attendee (p : IcalProp) (v : String) (hv : p.value = some v) :
    valsOf p "ATTENDEE" = if keyKind p.name = .attendee then [v] else [] := by
  unfold valsOf; rw [hv]
  by_cases h : p.name = "ATTENDEE"
  · simp [h, keyKind]
  · have h2 : keyKind p.name ≠ .attendee := fun hk => h (keyKind_attendee_inv hk)
    simp [h, h2]

/-- As `valsOf_kind_uid`, for `ATTACH`. -/
theorem valsOf_kind_attach (p : IcalProp) (v : String) (hv : p.value = some v) :
    valsOf p "ATTACH" = if keyKind p.name = .attach then [v] else [] := by
  unfold valsOf; rw [hv]
  by_cases h : p.name = "ATTACH"
  · simp [h, keyKind]
  · have h2 : keyKind p.name ≠ .attach := fun hk => h (keyKind_attach_inv hk)
    simp [h, h2]

/-- As `valsOf_kind_uid`, for `ALARM`. -/
theorem valsOf_kind_alarm (p : IcalProp) (v : String) (hv : p.value = some v) :
    valsOf p "ALARM" = if keyKind p.name = .alarm then [v] else [] := by
  unfold valsOf; rw [hv]
  by_cases h : p.name = "ALARM"
  · simp [h, keyKind]
  · have h2 : keyKind p.name ≠ .alarm := fun hk => h (keyKind_alarm_inv hk)
    simp [h, h2]

/-- Equality with `"RRULE"` expressed through the selected arm. -/
theorem beq_rrule_kind (k : String) : (k == "RRULE") = decide (keyKind k = .rrule) := by
  by_cases h : k = "RRULE"
  · subst h; decide
  · have h2 : keyKind k ≠ .rrule := fun hk => h (keyKind_rrule_inv hk)
    simp [h, h2]

/-- Buffering never changes the event under construction. -/
theorem bufferStep_event (st : BuildState) (k v : String) :
    (bufferStep st k v).event = st.event := by
  unfold bufferStep; split <;> rfl

/-- Buffering never changes the `has_rrules` flag. -/
theorem bufferStep_has (st : BuildState) (k v : String) :
    (bufferStep st k v).hasRrules = st.hasRrules := by
  unfold bufferStep; split <;> rfl

/-- Effect of buffering on the line buffer, in fold form. -/
theorem bufferStep_lines (st : BuildState) (k v : String) :
    (bufferStep st k v).rruleLines =
      (if isRRuleKey k then [k ++ ":" ++ v] else []).foldl pushOpt st.rruleLines := by
  unfold bufferStep; split <;> simp_all [List.foldl]

set_option maxHeartbeats 3200000 in
/-- The full effect of one successful `handleProp` step on every field the
claims are about: plain string scalars are last-write-wins, multi-valued
fields are appended via `pushOpt`, recurrence lines are buffered, the
`has_rrules` flag records an `RRULE` with a value, and the `rrule` field
of the event is never touched by the loop. -/
theorem handleProp_effect (lt : NaiveDateTime → MappedLocal NaiveDateTime)
    (dp : String → Except Err NaiveDateTime) (st : BuildState) (p : IcalProp)
    (st1 : BuildState) (h : handleProp lt dp st p = .ok st1) :
    st1.event.uid = lastD st.event.uid (valsOf p "UID") ∧
    st1.event.summary = lastD st.event.summary (valsOf p "SUMMARY") ∧
    st1.event.location = lastD st.event.location (valsOf p "LOCATION") ∧
    st1.event.description = lastD st.event.description (valsOf p "DESCRIPTION") ∧
    st1.event.organizer = lastD st.event.organizer (valsOf p "ORGANIZER") ∧
    st1.event.comment = lastD st.event.comment (valsOf p "COMMENT") ∧
    st1.event.categories = (valsOf p "CATEGORIES").foldl pushOpt st.event.categories ∧
    st1.event.attendees = (valsOf p "ATTENDEE").foldl pushOpt st.event.attendees ∧
    st1.event.attach = (valsOf p "ATTACH").foldl pushOpt st.event.attach ∧
    st1.event.alarms = (valsOf p "ALARM").foldl pushOpt st.event.alarms ∧
    st1.rruleLines = (recLinesOf p).foldl pushOpt st.rruleLines ∧
    st1.hasRrules = (st.hasRrules || (p.name == "RRULE" && p.value.isSome)) ∧
    st1.event.rrule = st.event.rrule := by
  cases hv : p.value with
  | none =>
    simp only [handleProp, hv] at h
    cases h
    simp [valsOf, recLinesOf, lastD, hv]
  | some v =>
    simp only [handleProp, hv] at h
    cases hk : keyKind p.name <;>
      simp only [hk] at h <;>
      (try split at h) <;>
      cases h <;>
      simp [hk, hv, recLinesOf, lastD, pushOpt,
        valsOf_kind_uid p v hv, valsOf_kind_summary p v hv,
        valsOf_kind_location p v hv, valsOf_kind_description p v hv,
        valsOf_kind_organizer p v hv, valsOf_kind_comment p v hv,
        valsOf_kind_categories p v hv, valsOf_kind_attendee p v hv,
        valsOf_kind_attach p v hv, valsOf_kind_alarm p v hv,
        beq_rrule_kind, bufferStep_event, bufferStep_has, bufferStep_lines]

/-! ### Composition over the whole property list -/

/-- Cons unfolding of `valuedValues`. -/
theorem valuedValues_cons (key : String) (p : IcalProp) (ps : List IcalProp) :
    valuedValues key (p :: ps) = valsOf p key ++ valuedValues key ps := rfl

/-- Cons unfolding of `recurrenceLines`. -/
theorem recurrenceLines_cons (p : IcalProp) (ps : List IcalProp) :
    recurrenceLines (p :: ps) = recLinesOf p ++ recurrenceLines ps := rfl

/-- Last-write-wins composes over append. -/
theorem lastD_append (o : Option String) (l1 l2 : List String) :
    lastD o (l1 ++ l2) = lastD (lastD o l1) l2 := by
  simp [lastD, List.foldl_append]

/-- Overwrite folding reads off the last element of the value list. -/
theorem lastD_getLast (o : Option String) (l : List String) :
    lastD o l = l.getLast?.or o := by
  induction l using List.reverseRecOn with
  | nil => simp [lastD]
  | append_singleton l a ih => simp [lastD_append, lastD, List.getLast?_concat]

/-- Pushing a list of elements onto a started vector appends them. -/
theorem foldl_pushOpt_some {α : Type} (l a : List α) :
    l.foldl pushOpt (some a) = some (a ++ l) := by
  induction l generalizing a with
  | nil => simp
  | cons x l ih => simp [pushOpt, ih]

/-- Pushing a list of elements onto an absent vector yields exactly that
list, or stays absent when there is nothing to push. -/
theorem foldl_pushOpt_none {α : Type} (l : List α) :
    l.foldl pushOpt none = optOfList l := by
  cases l with
  | nil => rfl
  | cons x l => simp [pushOpt, optOfList, foldl_pushOpt_some]

/-- The composed effect of a successful pass of the loop over a whole
property list, relative to an arbitrary starting state. -/
theorem buildLoop_effect (lt : NaiveDateTime → MappedLocal NaiveDateTime)
    (dp : String → Except Err NaiveDateTime) (ps : List IcalProp) :
    ∀ st st', buildLoop lt dp st ps = .ok st' →
    st'.event.uid = lastD st.event.uid (valuedValues "UID" ps) ∧
    st'.event.summary = lastD st.event.summary (valuedValues "SUMMARY" ps) ∧
    st'.event.location = lastD st.event.location (valuedValues "LOCATION" ps) ∧
    st'.event.description = lastD st.event.description (valuedValues "DESCRIPTION" ps) ∧
    st'.event.organizer = lastD st.event.organizer (valuedValues "ORGANIZER" ps) ∧
    st'.event.comment = lastD st.event.comment (valuedValues "COMMENT" ps) ∧
    st'.event.categories = (valuedValues "CATEGORIES" ps).foldl pushOpt st.event.categories ∧
    st'.event.attendees = (valuedValues "ATTENDEE" ps).foldl pushOpt st.event.attendees ∧
    st'.event.attach = (valuedValues "ATTACH" ps).foldl pushOpt st.event.attach ∧
    st'.event.alarms = (valuedValues "ALARM" ps).foldl pushOpt st.event.alarms ∧
    st'.rruleLines = (recurrenceLines ps).foldl pushOpt st.rruleLines ∧
    st'.hasRrules = (st.hasRrules || hasValuedRRule ps) ∧
    st'.event.rrule = st.event.rrule := by
  induction ps with
  | nil =>
    intro st st' h
    cases h
    simp [valuedValues, recurrenceLines, hasValuedRRule, lastD]
  | cons p ps ih =>
    intro st st' h
    simp only [buildLoop] at h
    cases hp : handleProp lt dp st p with
    | error e => rw [hp] at h; cases h
    | ok st1 =>
      rw [hp] at h
      obtain ⟨e1, e2, e3, e4, e5, e6, e7, e8, e9, e10, e11, e12, e13⟩ :=
        handleProp_effect lt dp st p st1 hp
      obtain ⟨r1, r2, r3, r4, r5, r6, r7, r8, r9, r10, r11, r12, r13⟩ := ih st1 st' h
      refine ⟨?_, ?_, ?_, ?_, ?_, ?_, ?_, ?_, ?_, ?_, ?_, ?_, ?_⟩
      · rw [r1, e1, valuedValues_cons, lastD_append]
      · rw [r2, e2, valuedValues_cons, lastD_append]
      · rw [r3, e3, valuedValues_cons, lastD_append]
      · rw [r4, e4, valuedValues_cons, lastD_append]
      · rw [r5, e5, valuedValues_cons, lastD_append]
      · rw [r6, e6, valuedValues_cons, lastD_append]
      · rw [r7, e7, valuedValues_cons, List.foldl_append]
      · rw [r8, e8, valuedValues_cons, List.foldl_append]
      · rw [r9, e9, valuedValues_cons, List.foldl_append]
      · rw [r10, e10, valuedValues_cons, List.foldl_append]
      · rw [r11, e11, recurrenceLines_cons, List.foldl_append]
      · rw [r12, e12]
        simp [hasValuedRRule, List.any_cons, Bool.or_assoc]
      · rw [r13, e13]

/-- An `RRULE` property with a value contributes a buffered line, so the
buffer is nonempty whenever the flag-relevant property is present. -/
theorem recurrenceLines_ne_nil (ps : List IcalProp) (h : hasValuedRRule ps = true) :
    recurrenceLines ps ≠ [] := by
  induction ps with
  | nil => simp [hasValuedRRule] at h
  | cons p ps ih =>
    simp only [hasValuedRRule, List.any_cons, Bool.or_eq_true] at h
    rcases h with h | h
    · obtain ⟨hn, hs⟩ := Bool.and_eq_true_iff.mp h
      obtain ⟨v, hv⟩ := Option.isSome_iff_exists.mp hs
      have hn2 : p.name = "RRULE" := by simpa using hn
      simp [recurrenceLines_cons, recLinesOf, hv, hn2, isRRuleKey]
    · have h2 := ih h
      simp only [recurrenceLines_cons]
      intro hc
      exact h2 (List.append_eq_nil.mp hc).2

/-- Characterization of a successful `map_ical_event` run: the recurrence
field is assembled from the buffered lines exactly when an `RRULE` with a
value was seen, and every scalar and multi-valued field of the claims is
determined by the values of its key in list order. -/
theorem map_ical_event_char (lt : NaiveDateTime → MappedLocal NaiveDateTime)
    (dp : String → Except Err NaiveDateTime) (rp : String → Except Err RRuleSet)
    (ps : List IcalProp) (e : Event) (h : map_ical_event lt dp rp ps = .ok e) :
    (hasValuedRRule ps = false → e.rrule = none) ∧
    (hasValuedRRule ps = true →
      ∃ r, rp (String.intercalate "\n" (recurrenceLines ps)) = .ok r ∧ e.rrule = some r) ∧
    e.uid = (valuedValues "UID" ps).getLast? ∧
    e.summary = (valuedValues "SUMMARY" ps).getLast? ∧
    e.location = (valuedValues "LOCATION" ps).getLast? ∧
    e.description = (valuedValues "DESCRIPTION" ps).getLast? ∧
    e.organizer = (valuedValues "ORGANIZER" ps).getLast? ∧
    e.comment = (valuedValues "COMMENT" ps).getLast? ∧
    e.categories = optOfList (valuedValues "CATEGORIES" ps) ∧
    e.attendees = optOfList (valuedValues "ATTENDEE" ps) ∧
    e.attach = optOfList (valuedValues "ATTACH" ps) ∧
    e.alarms = optOfList (valuedValues "ALARM" ps) := by
  unfold map_ical_event at h
  cases hb : buildLoop lt dp initState ps with
  | error e1 => rw [hb] at h; cases h
  | ok st =>
    rw [hb] at h
    dsimp only at h
    obtain ⟨e1, e2, e3, e4, e5, e6, e7, e8, e9, e10, e11, e12, e13⟩ :=
      buildLoop_effect lt dp ps initState st hb
    simp only [initState] at e1 e2 e3 e4 e5 e6 e7 e8 e9 e10 e11 e12 e13
    rw [Bool.false_or] at e12
    cases hr : hasValuedRRule ps with
    | false =>
      rw [e12, hr] at h
      simp only [Bool.false_eq_true, if_false] at h
      cases h
      refine ⟨fun _ => e13, ?_, ?_, ?_, ?_, ?_, ?_, ?_, ?_, ?_, ?_, ?_⟩
      · intro hc; exact Bool.noConfusion hc
      all_goals
        simp [e1, e2, e3, e4, e5, e6, e7, e8, e9, e10, lastD_getLast, foldl_pushOpt_none]
    | true =>
      rw [e12, hr] at h
      simp only [if_true] at h
      have hnn := recurrenceLines_ne_nil ps hr
      rw [e11, foldl_pushOpt_none] at h
      cases hll : recurrenceLines ps with
      | nil => exact absurd hll hnn
      | cons a l =>
        rw [hll] at h
        dsimp only [optOfList] at h
        cases hrp : rp (String.intercalate "\n" (a :: l)) with
        | error e2 => rw [hrp] at h; cases h
        | ok r =>
          rw [hrp] at h
          cases h
          refine ⟨?_, fun _ => ⟨r, ?_, ?_⟩, ?_, ?_, ?_, ?_, ?_, ?_, ?_, ?_, ?_, ?_⟩
          · intro hc; exact Bool.noConfusion hc
          · rfl
          · rfl
          all_goals
            simp [e1, e2, e3, e4, e5, e6, e7, e8, e9, e10, lastD_getLast, foldl_pushOpt_none]

/-! ### Unknown properties -/

/-- A valued property whose name selects no arm makes the dispatch fail with
the unknown-property error carrying that name, whatever the state. -/
theorem handleProp_unknown (lt : NaiveDateTime → MappedLocal NaiveDateTime)
    (dp : String → Except Err NaiveDateTime) (st : BuildState) (p : IcalProp) (v : String)
    (hv : p.value = some v) (hk : keyKind p.name = .unknown) :
    handleProp lt dp st p = .error (.unknownKey p.name) := by
  simp only [handleProp, hv, hk]

/-- Whether one property is processed successfully, and with which error it
fails, is independent of the loop state. -/
theorem handleProp_error_congr (lt : NaiveDateTime → MappedLocal NaiveDateTime)
    (dp : String → Except Err NaiveDateTime) (p : IcalProp) (e : Err) (st st' : BuildState)
    (h : handleProp lt dp st p = .error e) : handleProp lt dp st' p = .error e := by
  cases hv : p.value with
  | none => simp only [handleProp, hv] at h; cases h
  | some v =>
    simp only [handleProp, hv] at h ⊢
    cases hk : keyKind p.name <;>
      simp only [hk] at h ⊢ <;>
      (try split at h) <;>
      simp_all

/-- A property that processes successfully from the initial state processes
successfully from every state. -/
theorem propOk_spec (lt : NaiveDateTime → MappedLocal NaiveDateTime)
    (dp : String → Except Err NaiveDateTime) (p : IcalProp) (h : propOk lt dp p = true)
    (st : BuildState) : ∃ st1, handleProp lt dp st p = .ok st1 := by
  cases hh : handleProp lt dp st p with
  | ok s => exact ⟨s, rfl⟩
  | error e =>
    have h2 := handleProp_error_congr lt dp p e st initState hh
    unfold propOk at h
    rw [h2] at h
    simp at h

/-- With a valued unknown property in the list, the loop never succeeds,
from any starting state. -/
theorem buildLoop_unknown_never_ok (lt : NaiveDateTime → MappedLocal NaiveDateTime)
    (dp : String → Except Err NaiveDateTime) (p : IcalProp) (v : String)
    (hv : p.value = some v) (hk : keyKind p.name = .unknown) :
    ∀ l r st st', buildLoop lt dp st (l ++ p :: r) ≠ .ok st' := by
  intro l
  induction l with
  | nil =>
    intro r st st' hcon
    simp only [List.nil_append, buildLoop] at hcon
    rw [handleProp_unknown lt dp st p v hv hk] at hcon
    cases hcon
  | cons q l ih =>
    intro r st st' hcon
    simp only [List.cons_append, buildLoop] at hcon
    cases hq : handleProp lt dp st q with
    | error e => rw [hq] at hcon; cases hcon
    | ok st1 => rw [hq] at hcon; exact ih r st1 st' hcon

/-- When everything before the valued unknown property processes cleanly,
the loop's error is exactly the unknown-property error with that name. -/
theorem buildLoop_unknown_firstErr (lt : NaiveDateTime → MappedLocal NaiveDateTime)
    (dp : String → Except Err NaiveDateTime) (p : IcalProp) (v : String)
    (hv : p.value = some v) (hk : keyKind p.name = .unknown) :
    ∀ l r st, (∀ q ∈ l, propOk lt dp q = true) →
      buildLoop lt dp st (l ++ p :: r) = .error (.unknownKey p.name) := by
  intro l
  induction l with
  | nil =>
    intro r st _
    simp only [List.nil_append, buildLoop]
    rw [handleProp_unknown lt dp st p v hv hk]
  | cons q l ih =>
    intro r st hl
    obtain ⟨st1, hq⟩ := propOk_spec lt dp q (hl q (by simp)) st
    simp only [List.cons_append, buildLoop]
    rw [hq]
    exact ih r st1 (fun x hx => hl x (by simp [hx]))

/-- A name outside the recognized set selects the error arm. -/
theorem isUnknownKey_kind {k : String} (h : isUnknownKey k = true) : keyKind k = .unknown := by
  simp only [isUnknownKey, Bool.and_eq_true, Bool.not_eq_true'] at h
  obtain ⟨hc, hx⟩ := h
  simp [recognizedKeys] at hc
  obtain ⟨n1, n2, n3, n4, n5, n6, n7, n8, n9, n10, n11, n12, n13, n14, n15, n16,
    n17, n18, n19, n20, n21, n22, n23, n24, n25, n26, n27⟩ := hc
  have hd1 : ¬(k = "RDATE" ∨ k = "EXRULE" ∨ k = "EXDATE") :=
    fun hd => hd.elim n20 (fun hd2 => hd2.elim n21 n22)
  have hd2 : ¬(k = "TRANSP" ∨ k = "CLASS") := fun hd => hd.elim n26 n27
  have hxp : ¬(startsWithXDash k = true) := by simp [hx]
  unfold keyKind
  rw [if_neg n1, if_neg n2, if_neg n3, if_neg n4, if_neg n5, if_neg n6, if_neg n7,
    if_neg n8, if_neg n9, if_neg n10, if_neg n11, if_neg n12, if_neg n13, if_neg n14,
    if_neg n15, if_neg n16, if_neg n17, if_neg n18, if_neg n19, if_neg hd1,
    if_neg n23, if_neg n24, if_neg n25, if_neg hxp, if_neg hd2]

/-! ### Benign properties -/

/-- A name starting with `X-` differs from every name that does not. -/
theorem ne_of_startsWithX {k : String} (hx : startsWithXDash k = true) (lit : String)
    (hlit : startsWithXDash lit = false) : k ≠ lit := by
  intro he
  subst he
  rw [hx] at hlit
  exact Bool.noConfusion hlit

/-- A benign name is not one of the five buffered recurrence names. -/
theorem benign_not_rruleKey {k : String} (hb : benignKey k = true) : isRRuleKey k = false := by
  simp only [benignKey, Bool.or_eq_true, beq_iff_eq] at hb
  rcases hb with (hx | h) | h
  · simp [isRRuleKey,
      ne_of_startsWithX hx "RDATE" (by decide), ne_of_startsWithX hx "RRULE" (by decide),
      ne_of_startsWithX hx "EXDATE" (by decide), ne_of_startsWithX hx "EXRULE" (by decide),
      ne_of_startsWithX hx "DTSTART" (by decide)]
  · subst h; decide
  · subst h; decide

/-- A benign name selects the `X-` arm or the `TRANSP`/`CLASS` arm. -/
theorem benign_kind {k : String} (hb : benignKey k = true) :
    keyKind k = .xExt ∨ keyKind k = .benign := by
  simp only [benignKey, Bool.or_eq_true, beq_iff_eq] at hb
  rcases hb with (hx | h) | h
  · left
    have n1 : k ≠ "UID" := ne_of_startsWithX hx _ (by decide)
    have n2 : k ≠ "SUMMARY" := ne_of_startsWithX hx _ (by decide)
    have n3 : k ≠ "DTSTART" := ne_of_startsWithX hx _ (by decide)
    have n4 : k ≠ "DTEND" := ne_of_startsWithX hx _ (by decide)
    have n5 : k ≠ "CREATED" := ne_of_startsWithX hx _ (by decide)
    have n6 : k ≠ "DURATION" := ne_of_startsWithX hx _ (by decide)
    have n7 : k ≠ "LOCATION" := ne_of_startsWithX hx _ (by decide)
    have n8 : k ≠ "DESCRIPTION" := ne_of_startsWithX hx _ (by decide)
    have n9 : k ≠ "STATUS" := ne_of_startsWithX hx _ (by decide)
    have n10 : k ≠ "LAST-MODIFIED" := ne_of_startsWithX hx _ (by decide)
    have n11 : k ≠ "TRANSPARENCY" := ne_of_startsWithX hx _ (by decide)
    have n12 : k ≠ "CATEGORIES" := ne_of_startsWithX hx _ (by decide)
    have n13 : k ≠ "ATTENDEE" := ne_of_startsWithX hx _ (by decide)
    have n14 : k ≠ "ORGANIZER" := ne_of_startsWithX hx _ (by decide)
    have n15 : k ≠ "PRIORITY" := ne_of_startsWithX hx _ (by decide)
    have n16 : k ≠ "SEQUENCE" := ne_of_startsWithX hx _ (by decide)
    have n17 : k ≠ "DTSTAMP" := ne_of_startsWithX hx _ (by decide)
    have n18 : k ≠ "RECURRENCE-ID" := ne_of_startsWithX hx _ (by decide)
    have n19 : k ≠ "RRULE" := ne_of_startsWithX hx _ (by decide)
    have hd1 : ¬(k = "RDATE" ∨ k = "EXRULE" ∨ k = "EXDATE") := by
      rintro (hh | hh | hh)
      · exact ne_of_startsWithX hx "RDATE" (by decide) hh
      · exact ne_of_startsWithX hx "EXRULE" (by decide) hh
      · exact ne_of_startsWithX hx "EXDATE" (by decide) hh
    have n23 : k ≠ "COMMENT" := ne_of_startsWithX hx _ (by decide)
    have n24 : k ≠ "ATTACH" := ne_of_startsWithX hx _ (by decide)
    have n25 : k ≠ "ALARM" := ne_of_startsWithX hx _ (by decide)
    unfold keyKind
    rw [if_neg n1, if_neg n2, if_neg n3, if_neg n4, if_neg n5, if_neg n6, if_neg n7,
      if_neg n8, if_neg n9, if_neg n10, if_neg n11, if_neg n12, if_neg n13, if_neg n14,
      if_neg n15, if_neg n16, if_neg n17, if_neg n18, if_neg n19, if_neg hd1,
      if_neg n23, if_neg n24, if_neg n25, if_pos hx]
  · right; subst h; decide
  · right; subst h; decide

/-- Buffering is the identity on names outside the five recurrence names. -/
theorem bufferStep_id (st : BuildState) (k v : String) (h : isRRuleKey k = false) :
    bufferStep st k v = st := by
  simp [bufferStep, h]

/-- Benign properties (any `X-` name, `TRANSP`, `CLASS`) are processed as
exact no-ops: no failure, no state change. -/
theorem handleProp_benign (lt : NaiveDateTime → MappedLocal NaiveDateTime)
    (dp : String → Except Err NaiveDateTime) (st : BuildState) (p : IcalProp)
    (hb : benignKey p.name = true) : handleProp lt dp st p = .ok st := by
  cases hv : p.value with
  | none => simp [handleProp, hv]
  | some v =>
    have hbuf : bufferStep st p.name v = st := bufferStep_id st p.name v (benign_not_rruleKey hb)
    rcases benign_kind hb with hk | hk <;> simp [handleProp, hv, hk, hbuf]

/-- Dropping the benign properties from the list does not change the loop's
result, from any starting state. -/
theorem buildLoop_filter_benign (lt : NaiveDateTime → MappedLocal NaiveDateTime)
    (dp : String → Except Err NaiveDateTime) (ps : List IcalProp) :
    ∀ st, buildLoop lt dp st (ps.filter (fun p => !(benignKey p.name))) =
      buildLoop lt dp st ps := by
  induction ps with
  | nil => intro st; rfl
  | cons p ps ih =>
    intro st
    cases hb : benignKey p.name with
    | true =>
      rw [List.filter_cons_of_neg (by simp [hb])]
      rw [ih st]
      simp only [buildLoop]
      rw [handleProp_benign lt dp st p hb]
    | false =>
      rw [List.filter_cons_of_pos (by simp [hb])]
      simp only [buildLoop]
      cases hq : handleProp lt dp st p with
      | error e => rfl
      | ok st1 => exact ih st1

/-! ### Shape facts about the date parsers -/

/-- The `%Y%m%d` parser only succeeds on eight characters. -/
theorem parseYMD_length {s : String} {d : NaiveDate} (h : parseYMD s = some d) :
    s.data.length = 8 := by
  unfold parseYMD at h
  split at h
  · next y1 y2 y3 y4 m1 m2 d1 d2 heq => rw [heq]; rfl
  · cases h

/-- The 15-character core only succeeds on fifteen characters. -/
theorem parseDTcore_length {cs : List Char} {dt : NaiveDateTime}
    (h : parseDTcore cs = some dt) : cs.length = 15 := by
  unfold parseDTcore at h
  split at h
  · simp
  · cases h

/-- The `%Y%m%dT%H%M%SZ` parser only succeeds on sixteen characters. -/
theorem parseDTZ_length {s : String} {dt : NaiveDateTime} (h : parseDTZ s = some dt) :
    s.data.length = 16 := by
  unfold parseDTZ at h
  split at h
  · next rest heq =>
    have h1 := parseDTcore_length h
    have h2 : s.data.reverse.length = 16 := by
      rw [heq]
      simp [List.length_reverse] at h1 ⊢
      omega
    simpa using h2
  · cases h

/-- On any string that is not eight characters long, the `%Y%m%d` rule
fails. -/
theorem parseYMD_none_of_length {s : String} (h : s.data.length ≠ 8) :
    parseYMD s = none := by
  cases hy : parseYMD s with
  | none => rfl
  | some d => exact absurd (parseYMD_length hy) h

/-! ### The duration grammar `P[nD][T[nH][nM][nS]]` -/

/-- A digit scan over a list that starts with no digit consumes nothing. -/
theorem takeDigits_of_headNotDigit {cs : List Char} (h : headNotDigit cs = true) :
    takeDigits cs = ([], cs) := by
  cases cs with
  | nil => rfl
  | cons c r =>
    simp only [headNotDigit, Bool.not_eq_true'] at h
    simp [takeDigits, h]

/-- A digit scan over a digit run followed by a non-digit splits exactly at
the boundary. -/
theorem takeDigits_append {ds rest : List Char} (hall : ds.all Char.isDigit = true)
    (hrest : headNotDigit rest = true) : takeDigits (ds ++ rest) = (ds, rest) := by
  induction ds with
  | nil => simpa using takeDigits_of_headNotDigit hrest
  | cons c ds ih =>
    simp only [List.all_cons, Bool.and_eq_true] at hall
    obtain ⟨hc, hall2⟩ := hall
    simp [takeDigits, hc, ih hall2]

/-- Inversion of the digit scan. -/
theorem takeDigits_inv : ∀ (cs a b : List Char), takeDigits cs = (a, b) →
    cs = a ++ b ∧ a.all Char.isDigit = true ∧ headNotDigit b = true := by
  intro cs
  induction cs with
  | nil => intro a b h; cases h; simp [headNotDigit]
  | cons c r ih =>
    intro a b h
    by_cases hc : c.isDigit
    · rcases hp : takeDigits r with ⟨a1, b1⟩
      obtain ⟨h1, h2, h3⟩ := ih a1 b1 hp
      simp only [takeDigits, hc, if_true, hp] at h
      cases h
      exact ⟨by rw [h1]; rfl, by simp [hc, h2], h3⟩
    · simp only [takeDigits, hc, if_false] at h
      cases h
      exact ⟨rfl, by simp, by simp [headNotDigit, hc]⟩

/-- A present component is consumed, yielding its overflow-guarded value. -/
theorem compOpt_consume (x : Char) (ds rest : List Char) (hne : ds ≠ [])
    (hall : ds.all Char.isDigit = true) (hx : x.isDigit = false) :
    compOpt x (ds ++ x :: rest) = (parseI64orZero ds, rest) := by
  unfold compOpt
  rw [takeDigits_append hall (by simp [headNotDigit, hx])]
  simp [hne]

/-- An absent component consumes nothing when what follows is a digit run
followed by a different non-digit letter (or a bare non-digit letter). -/
theorem compOpt_skip (x : Char) (ds : List Char) (y : Char) (rest : List Char)
    (hall : ds.all Char.isDigit = true) (hy : y.isDigit = false) (h : ds = [] ∨ y ≠ x) :
    compOpt x (ds ++ y :: rest) = (0, ds ++ y :: rest) := by
  unfold compOpt
  rw [takeDigits_append hall (by simp [headNotDigit, hy])]
  rcases h with h | h
  · subst h; simp
  · simp [h]

/-- An absent component consumes nothing at the end of input. -/
theorem compOpt_nil (x : Char) : compOpt x [] = (0, []) := rfl

/-- Inversion of one optional component. -/
theorem compOpt_inv (x : Char) (cs : List Char) (v : Int) (r : List Char)
    (h : compOpt x cs = (v, r)) :
    (cs = r ∧ v = 0) ∨
    (∃ ds, ds ≠ [] ∧ ds.all Char.isDigit = true ∧ cs = ds ++ x :: r ∧
      v = parseI64orZero ds) := by
  unfold compOpt at h
  rcases htd : takeDigits cs with ⟨a, b⟩
  rw [htd] at h
  obtain ⟨hcs, hall, _⟩ := takeDigits_inv cs a b htd
  cases b with
  | nil =>
    dsimp only at h
    cases h
    exact Or.inl ⟨rfl, rfl⟩
  | cons c rest =>
    dsimp only at h
    by_cases hc : a ≠ [] ∧ c = x
    · rw [if_pos hc] at h
      cases h
      exact Or.inr ⟨a, hc.1, hall, by rw [hcs, hc.2], rfl⟩
    · rw [if_neg hc] at h
      cases h
      exact Or.inl ⟨rfl, rfl⟩

/-- Functional form of `compOpt_inv`: what was consumed is one optional
component. -/
theorem compOpt_inv_part (x : Char) (cs : List Char) (v : Int) (r : List Char)
    (h : compOpt x cs = (v, r)) : ∃ o, optRun o ∧ cs = optPart x o ++ r := by
  rcases compOpt_inv x cs v r h with ⟨hr, _⟩ | ⟨ds, hne, hall, hshape, _⟩
  · exact ⟨none, trivial, by simpa using hr⟩
  · exact ⟨some ds, ⟨hne, hall⟩, by rw [hshape]; simp [optPart]⟩

/-- The last time component runs to the end of input, contributing its
clamped value. -/
theorem compOpt_optPart_S {sOpt : Option (List Char)} (hs : optRun sOpt) :
    compOpt 'S' (optPart 'S' sOpt) = (compVal sOpt, []) := by
  cases sOpt with
  | none => rfl
  | some ds =>
    obtain ⟨hne, hall⟩ := hs
    exact compOpt_consume 'S' ds [] hne hall (by decide)

/-- The minute component consumes its own part and stops before the second
part. -/
theorem compOpt_optPart_M {mOpt sOpt : Option (List Char)} (hm : optRun mOpt)
    (hs : optRun sOpt) :
    compOpt 'M' (optPart 'M' mOpt ++ optPart 'S' sOpt) = (compVal mOpt, optPart 'S' sOpt) := by
  cases mOpt with
  | some ds =>
    obtain ⟨hne, hall⟩ := hm
    have hsh : optPart 'M' (some ds) ++ optPart 'S' sOpt = ds ++ 'M' :: optPart 'S' sOpt := by
      simp [optPart]
    rw [hsh]
    exact compOpt_consume 'M' ds (optPart 'S' sOpt) hne hall (by decide)
  | none =>
    cases sOpt with
    | none => rfl
    | some ds2 =>
      obtain ⟨hne2, hall2⟩ := hs
      have hsh : (optPart 'M' none ++ optPart 'S' (some ds2)) = ds2 ++ 'S' :: [] := by
        simp [optPart]
      rw [hsh]
      exact compOpt_skip 'M' ds2 'S' [] hall2 (by decide) (Or.inr (by decide))

/-- The hour component consumes its own part and stops before the minute and
second parts. -/
theorem compOpt_optPart_H {hOpt mOpt sOpt : Option (List Char)} (hh : optRun hOpt)
    (hm : optRun mOpt) (hs : optRun sOpt) :
    compOpt 'H' (optPart 'H' hOpt ++ (optPart 'M' mOpt ++ optPart 'S' sOpt)) =
      (compVal hOpt, optPart 'M' mOpt ++ optPart 'S' sOpt) := by
  cases hOpt with
  | some ds =>
    obtain ⟨hne, hall⟩ := hh
    have hsh : optPart 'H' (some ds) ++ (optPart 'M' mOpt ++ optPart 'S' sOpt) =
        ds ++ 'H' :: (optPart 'M' mOpt ++ optPart 'S' sOpt) := by
      simp [optPart]
    rw [hsh]
    exact compOpt_consume 'H' ds _ hne hall (by decide)
  | none =>
    cases mOpt with
    | some dsm =>
      obtain ⟨hnem, hallm⟩ := hm
      have hsh : optPart 'H' none ++ (optPart 'M' (some dsm) ++ optPart 'S' sOpt) =
          dsm ++ 'M' :: optPart 'S' sOpt := by
        simp [optPart]
      rw [hsh]
      have h2 := compOpt_skip 'H' dsm 'M' (optPart 'S' sOpt) hallm (by decide) (Or.inr (by decide))
      rw [h2]
      simp [optPart, compVal]
    | none =>
      cases sOpt with
      | none => rfl
      | some dss =>
        obtain ⟨hnes, halls⟩ := hs
        have hsh : optPart 'H' none ++ (optPart 'M' none ++ optPart 'S' (some dss)) =
            dss ++ 'S' :: [] := by
          simp [optPart]
        rw [hsh]
        have h2 := compOpt_skip 'H' dss 'S' [] halls (by decide) (Or.inr (by decide))
        rw [h2]
        simp [optPart, compVal]

/-- The day component consumes its own part and stops before the time
block. -/
theorem compOpt_optPart_D {dOpt : Option (List Char)}
    {t : Option (Option (List Char) × Option (List Char) × Option (List Char))}
    (hd : optRun dOpt) :
    compOpt 'D' (optPart 'D' dOpt ++ timeBlock t) = (compVal dOpt, timeBlock t) := by
  cases dOpt with
  | some ds =>
    obtain ⟨hne, hall⟩ := hd
    have hsh : optPart 'D' (some ds) ++ timeBlock t = ds ++ 'D' :: timeBlock t := by
      simp [optPart]
    rw [hsh]
    exact compOpt_consume 'D' ds _ hne hall (by decide)
  | none =>
    cases t with
    | none => rfl
    | some trip =>
      rcases trip with ⟨h1, m1, s1⟩
      have hsh : optPart 'D' none ++ timeBlock (some (h1, m1, s1)) =
          ([] : List Char) ++ 'T' :: (optPart 'H' h1 ++ optPart 'M' m1 ++ optPart 'S' s1) := by
        simp [optPart, timeBlock]
      rw [hsh]
      have h2 := compOpt_skip 'D' [] 'T'
        (optPart 'H' h1 ++ optPart 'M' m1 ++ optPart 'S' s1) (by simp) (by decide) (Or.inl rfl)
      rw [h2]
      simp [optPart, timeBlock, compVal]

/-- The clamped reading of a digit run is never negative. -/
theorem parseI64orZero_nonneg (ds : List Char) : 0 ≤ parseI64orZero ds := by
  unfold parseI64orZero
  split
  · exact Int.natCast_nonneg _
  · exact le_refl 0

/-- Component values are never negative. -/
theorem compVal_nonneg (o : Option (List Char)) : 0 ≤ compVal o := by
  cases o with
  | none => exact le_refl 0
  | some ds => exact parseI64orZero_nonneg ds

/-- The hour value is never negative. -/
theorem timeValH_nonneg (t : Option (Option (List Char) × Option (List Char) × Option (List Char))) :
    0 ≤ timeValH t := by
  cases t with
  | none => exact le_refl 0
  | some trip => rcases trip with ⟨h, m, sec⟩; exact compVal_nonneg h

/-- The minute value is never negative. -/
theorem timeValM_nonneg (t : Option (Option (List Char) × Option (List Char) × Option (List Char))) :
    0 ≤ timeValM t := by
  cases t with
  | none => exact le_refl 0
  | some trip => rcases trip with ⟨h, m, sec⟩; exact compVal_nonneg m

/-- The second value is never negative. -/
theorem timeValS_nonneg (t : Option (Option (List Char) × Option (List Char) × Option (List Char))) :
    0 ≤ timeValS t := by
  cases t with
  | none => exact le_refl 0
  | some trip => rcases trip with ⟨h, m, sec⟩; exact compVal_nonneg sec

/-- For the nonnegative inputs the parser produces, the checked `Duration`
sum collapses to a single bound check on the total: in range it is the
total span, out of range it is the constructor/addition panic. -/
theorem durationSum_eq (d h m s : Int) (hd0 : 0 ≤ d) (hh0 : 0 ≤ h) (hm0 : 0 ≤ m)
    (hs0 : 0 ≤ s) :
    durationSum d h m s =
      if d * 86400 + h * 3600 + m * 60 + s ≤ durMaxSecs
      then .ok (d * 86400 + h * 3600 + m * 60 + s)
      else .error (.panicked "TimeDelta out of bounds") := by
  unfold durationSum checkedSecs
  by_cases c1 : -9223372036854775 ≤ d * 86400 ∧ d * 86400 ≤ 9223372036854775
  case neg =>
    rw [if_neg c1, if_neg (show ¬(d * 86400 + h * 3600 + m * 60 + s ≤ durMaxSecs) by
      simp only [durMaxSecs]; omega)]
  case pos =>
  rw [if_pos c1]
  dsimp only
  by_cases c2 : -9223372036854775 ≤ h * 3600 ∧ h * 3600 ≤ 9223372036854775
  case neg =>
    rw [if_neg c2, if_neg (show ¬(d * 86400 + h * 3600 + m * 60 + s ≤ durMaxSecs) by
      simp only [durMaxSecs]; omega)]
  case pos =>
  rw [if_pos c2]
  dsimp only
  by_cases c3 : -9223372036854775 ≤ m * 60 ∧ m * 60 ≤ 9223372036854775
  case neg =>
    rw [if_neg c3, if_neg (show ¬(d * 86400 + h * 3600 + m * 60 + s ≤ durMaxSecs) by
      simp only [durMaxSecs]; omega)]
  case pos =>
  rw [if_pos c3]
  dsimp only
  by_cases c4 : -9223372036854775 ≤ s ∧ s ≤ 9223372036854775
  case neg =>
    rw [if_neg c4, if_neg (show ¬(d * 86400 + h * 3600 + m * 60 + s ≤ durMaxSecs) by
      simp only [durMaxSecs]; omega)]
  case pos =>
  rw [if_pos c4]
  dsimp only
  by_cases c5 : -9223372036854775 ≤ d * 86400 + h * 3600 ∧ d * 86400 + h * 3600 ≤ 9223372036854775
  case neg =>
    rw [if_neg c5, if_neg (show ¬(d * 86400 + h * 3600 + m * 60 + s ≤ durMaxSecs) by
      simp only [durMaxSecs]; omega)]
  case pos =>
  rw [if_pos c5]
  dsimp only
  by_cases c6 : -9223372036854775 ≤ d * 86400 + h * 3600 + m * 60 ∧
      d * 86400 + h * 3600 + m * 60 ≤ 9223372036854775
  case neg =>
    rw [if_neg c6, if_neg (show ¬(d * 86400 + h * 3600 + m * 60 + s ≤ durMaxSecs) by
      simp only [durMaxSecs]; omega)]
  case pos =>
  rw [if_pos c6]
  dsimp only
  by_cases c7 : -9223372036854775 ≤ d * 86400 + h * 3600 + m * 60 + s ∧
      d * 86400 + h * 3600 + m * 60 + s ≤ 9223372036854775
  case neg =>
    rw [if_neg c7, if_neg (show ¬(d * 86400 + h * 3600 + m * 60 + s ≤ durMaxSecs) by
      simp only [durMaxSecs]; omega)]
  case pos =>
    rw [if_pos c7, if_pos (show d * 86400 + h * 3600 + m * 60 + s ≤ durMaxSecs by
      simp only [durMaxSecs]; omega)]

/-- On any grammar string, the parser computes exactly the checked
`Duration` sum of the clamped component values: overflowing runs count as
zero (and never produce an error by themselves), and success or panic is
decided by the chrono span bound on the clamped total. -/
theorem parse_duration_grammar_eval (s : String) (d : Option (List Char))
    (t : Option (Option (List Char) × Option (List Char) × Option (List Char)))
    (hd : optRun d) (ht : optRunT t)
    (hsd : s.data = 'P' :: (optPart 'D' d ++ timeBlock t)) :
    parse_duration s = durationSum (compVal d) (timeValH t) (timeValM t) (timeValS t) := by
  have hvd := compOpt_optPart_D (t := t) hd
  have h1 : parse_duration s = pdTail (optPart 'D' d ++ timeBlock t) := by
    unfold parse_duration
    rw [hsd]
    rfl
  rw [h1]
  clear h1 hsd
  cases t with
  | none =>
    simp only [timeBlock, List.append_nil] at hvd ⊢
    simp [pdTail, hvd, timeValH, timeValM, timeValS]
  | some trip =>
    rcases trip with ⟨ho1, mo1, so1⟩
    obtain ⟨hh, hm, hs⟩ := ht
    have hvh := compOpt_optPart_H hh hm hs
    have hvm := compOpt_optPart_M hm hs
    have hvs := compOpt_optPart_S hs
    simp only [timeBlock, List.append_assoc] at hvd ⊢
    simp [pdTail, hvd, timeTail, hvh, hvm, hvs, timeValH, timeValM, timeValS]

/-- The parser either reports the format error or the input is a grammar
string (panics and successes only arise past a full grammar match). -/
theorem duration_shape (s : String) :
    parse_duration s = .error .invalidDuration ∨ DurationGrammar s := by
  unfold parse_duration
  split
  case h_2 => exact Or.inl rfl
  case h_1 r0 heq =>
    unfold pdTail
    dsimp only
    rcases hpd : compOpt 'D' r0 with ⟨vd, r1⟩
    dsimp only
    obtain ⟨dOpt, hdRun, hdShape⟩ := compOpt_inv_part 'D' r0 vd r1 hpd
    split
    case h_2 =>
      -- the whole string was `P` with an optional day component
      refine Or.inr ⟨dOpt, none, hdRun, trivial, ?_⟩
      rw [heq, hdShape]
      simp [timeBlock]
    case h_3 => exact Or.inl rfl
    case h_1 r2 =>
      unfold timeTail
      dsimp only
      rcases hH : compOpt 'H' r2 with ⟨vh, r3⟩
      dsimp only
      rcases hM : compOpt 'M' r3 with ⟨vm, r4⟩
      dsimp only
      rcases hS : compOpt 'S' r4 with ⟨vs, r5⟩
      dsimp only
      by_cases hr5 : r5 = []
      · obtain ⟨ho, hoRun, hoShape⟩ := compOpt_inv_part 'H' r2 vh r3 hH
        obtain ⟨mo, moRun, moShape⟩ := compOpt_inv_part 'M' r3 vm r4 hM
        obtain ⟨so, soRun, soShape⟩ := compOpt_inv_part 'S' r4 vs r5 hS
        refine Or.inr ⟨dOpt, some (ho, mo, so), hdRun, ⟨hoRun, moRun, soRun⟩, ?_⟩
        rw [heq, hdShape, hoShape, moShape, soShape, hr5]
        simp [timeBlock, optPart]
      · rw [if_neg hr5]
        exact Or.inl rfl

/-- Strings outside the grammar fail with the format error. -/
theorem parse_duration_format_err {s : String} (hg : ¬ DurationGrammar s) :
    parse_duration s = .error .invalidDuration := by
  rcases duration_shape s with h | h
  · exact h
  · exact absurd h hg

/-- Acceptance of `parse_duration` is exactly the grammar restricted by the
chrono span bound on the clamped component total. -/
theorem parse_duration_isOk_iff (s : String) :
    isOkE (parse_duration s) = true ↔ BoundedDurationGrammar s := by
  constructor
  · intro h
    rcases duration_shape s with hf | hg
    · rw [hf] at h
      simp [isOkE] at h
    · obtain ⟨d, t, hd, ht, hsd⟩ := hg
      have he := parse_duration_grammar_eval s d t hd ht hsd
      rw [he, durationSum_eq _ _ _ _ (compVal_nonneg d) (timeValH_nonneg t)
        (timeValM_nonneg t) (timeValS_nonneg t)] at h
      by_cases hb : compVal d * 86400 + timeValH t * 3600 + timeValM t * 60 + timeValS t ≤
          durMaxSecs
      · exact ⟨d, t, hd, ht, hsd, hb⟩
      · rw [if_neg hb] at h
        simp [isOkE] at h
  · rintro ⟨d, t, hd, ht, hsd, hb⟩
    rw [parse_duration_grammar_eval s d t hd ht hsd,
      durationSum_eq _ _ _ _ (compVal_nonneg d) (timeValH_nonneg t)
        (timeValM_nonneg t) (timeValS_nonneg t),
      if_pos hb]
    rfl

/-! ### Claim theorems -/

/-- C1 (corrected, counterexample): the claim says any recurrence-defining
property (RRULE, RDATE, EXRULE, EXDATE or DTSTART) with a value makes the
recurrence field non-absent.  A component with only a valued `RDATE`
builds successfully with an absent recurrence field. -/
theorem c1_counterexample :
    map_ical_event utcLocalTz noFallback okRRule
        [{ name := "RDATE", value := some "19700101" }] = .ok ({} : Event) ∧
    ({} : Event).rrule = none := by
  exact ⟨rfl, rfl⟩

/-- C1 (amended): for every successfully built event, the recurrence field
is non-absent exactly when an `RRULE` property with a value is present;
it is then the external engine's parse of the newline-joined buffered
recurrence lines (which reflect all recurrence-defining properties in
order), and it is absent otherwise, even when other recurrence-defining
properties (RDATE, EXRULE, EXDATE, DTSTART) appear. -/
theorem c1_recurrence_iff_rrule (lt : NaiveDateTime → MappedLocal NaiveDateTime)
    (dp : String → Except Err NaiveDateTime) (rp : String → Except Err RRuleSet)
    (ps : List IcalProp) (e : Event) (h : map_ical_event lt dp rp ps = .ok e) :
    (hasValuedRRule ps = false → e.rrule = none) ∧
    (hasValuedRRule ps = true →
      ∃ r, rp (String.intercalate "\n" (recurrenceLines ps)) = .ok r ∧ e.rrule = some r) := by
  obtain ⟨a, b, _⟩ := map_ical_event_char lt dp rp ps e h
  exact ⟨a, b⟩

/-- C1 witness: the amended claim at a concrete input. -/
theorem c1_witness :
    (hasValuedRRule c1props = false → c1event.rrule = none) ∧
    (hasValuedRRule c1props = true →
      ∃ r, okRRule (String.intercalate "\n" (recurrenceLines c1props)) = .ok r ∧
        c1event.rrule = some r) :=
  c1_recurrence_iff_rrule utcLocalTz noFallback okRRule c1props c1event (by rfl)

/-- C2 (code bug): the claim (and the spec's required behavior) is that a
zone-less `YYYYMMDDTHHMMSS` whose local-time interpretation falls in a
daylight-saving gap yields a recoverable conversion error.  The source
instead force-unwraps the local-time mapping, which is a panic: under a
local time zone with a spring-forward gap covering 02:30 of 2024-03-31
(as Europe/Berlin), the parser's result is the modelled panic, not a
recoverable `Err`. -/
theorem c2_dst_gap_panics :
    parse_datetime gapLocalTz noFallback "20240331T023000" =
      .error (.panicked "No such local time") := by
  rfl

/-- C5 (confirmed): the disambiguation rules run in source order with the
first success winning: any string the eight-digit `%Y%m%d` rule accepts
yields the `Date` variant (never an instant), and any string the
`%Y%m%dT%H%M%SZ` rule accepts — on which the eight-digit rule necessarily
fails — yields the `Instant` variant carrying the literal wall-clock
reading as UTC. -/
theorem c5_datetime_rule_order (lt : NaiveDateTime → MappedLocal NaiveDateTime)
    (dp : String → Except Err NaiveDateTime) :
    (∀ s d, parseYMD s = some d → parse_datetime lt dp s = .ok (.date d)) ∧
    (∀ s dt, parseDTZ s = some dt → parse_datetime lt dp s = .ok (.dateTime dt)) := by
  constructor
  · intro s d h
    unfold parse_datetime
    rw [h]
  · intro s dt h
    have hy : parseYMD s = none := by
      refine parseYMD_none_of_length ?_
      rw [parseDTZ_length h]
      decide
    unfold parse_datetime
    rw [hy, h]

/-- C5 witness: both rules at concrete inputs. -/
theorem c5_witness :
    parse_datetime utcLocalTz noFallback "20240611" = .ok (.date ⟨2024, 6, 11⟩) ∧
    parse_datetime utcLocalTz noFallback "20240611T083015Z" =
      .ok (.dateTime ⟨2024, 6, 11, 8, 30, 15⟩) :=
  ⟨(c5_datetime_rule_order utcLocalTz noFallback).1 _ _ (by rfl),
   (c5_datetime_rule_order utcLocalTz noFallback).2 _ _ (by rfl)⟩

/-- C6 (corrected, counterexample): the claim says the parser accepts every
grammar string, but a grammar string whose component total exceeds the
chrono span bound panics in the `Duration` constructors: a second count
of exactly `i64::MAX` parses, matches the grammar, and then crashes
instead of succeeding or failing recoverably. -/
theorem c6_counterexample :
    DurationGrammar "PT9223372036854775807S" ∧
    parse_duration "PT9223372036854775807S" = .error (.panicked "TimeDelta out of bounds") := by
  constructor
  · exact ⟨none, some (none, none, some ("9223372036854775807".data)), trivial,
      ⟨trivial, trivial, ⟨by decide, by decide⟩⟩, by decide⟩
  · rfl

/-- C6 (amended): the duration parser matches exactly the anchored grammar
`P[nD][T[nH][nM][nS]]` with absent components zero: `P1DT2H3M4S` is one
day, two hours, three minutes and four seconds; `P0D` is the zero span;
`PT3M` shows a defaulted component; `P1DX` (trailing garbage) is rejected
with the format error, as is every non-grammar string; and the parser
returns success exactly on the grammar strings whose clamped component
total fits the chrono span bound (beyond it the `Duration` arithmetic
panics instead). -/
theorem c6_duration_grammar :
    parse_duration "P1DT2H3M4S" = .ok 93784 ∧
    parse_duration "P0D" = .ok 0 ∧
    parse_duration "PT3M" = .ok 180 ∧
    parse_duration "P1DX" = .error .invalidDuration ∧
    (∀ s : String, isOkE (parse_duration s) = true ↔ BoundedDurationGrammar s) ∧
    (∀ s : String, ¬ DurationGrammar s → parse_duration s = .error .invalidDuration) :=
  ⟨by rfl, by rfl, by rfl, by rfl, parse_duration_isOk_iff,
   fun _ hg => parse_duration_format_err hg⟩

/-- C6 witness: the acceptance equivalence and the format-error conjunct at
concrete inputs. -/
theorem c6_witness :
    isOkE (parse_duration "P2DT1H") = true ∧
    parse_duration "XP1D" = .error .invalidDuration := by
  constructor
  · exact (c6_duration_grammar.2.2.2.2.1 "P2DT1H").mpr
      ⟨some ['2'], some (some ['1'], none, none), ⟨by decide, by decide⟩,
        ⟨⟨by decide, by decide⟩, trivial, trivial⟩, by decide, by decide⟩
  · refine c6_duration_grammar.2.2.2.2.2 "XP1D" ?_
    rintro ⟨d, t, _, _, hsd⟩
    simp at hsd

/-- C10 (corrected, counterexample): the claim says any grammar string with
an `i64`-overflowing digit run parses successfully with that component
zeroed.  The zeroing holds, but success does not: with an overflowing
day run alongside a second count of `i64::MAX`, the day contributes zero
yet `Duration::seconds` panics, so no success is returned. -/
theorem c10_counterexample :
    DurationGrammar "P99999999999999999999DT9223372036854775807S" ∧
    digitsVal ("99999999999999999999".data) > i64Max ∧
    parse_duration "P99999999999999999999DT9223372036854775807S" =
      .error (.panicked "TimeDelta out of bounds") := by
  refine ⟨⟨some ("99999999999999999999".data),
    some (none, none, some ("9223372036854775807".data)), ⟨by decide, by decide⟩,
    ⟨trivial, trivial, ⟨by decide, by decide⟩⟩, by decide⟩, by decide, by rfl⟩

/-- C10 (amended): on every grammar string, a component whose digit run
exceeds the signed 64-bit range is silently treated as zero — the failed
`parse::<i64>` never surfaces as an error — and the overall result is the
checked `Duration` sum of the remaining clamped components (a success
exactly when that total fits the chrono span bound; in particular, a
lone overflowing component yields the zero span). -/
theorem c10_overflow_component_zeroed (s : String) (d : Option (List Char))
    (t : Option (Option (List Char) × Option (List Char) × Option (List Char)))
    (hd : optRun d) (ht : optRunT t)
    (hsd : s.data = 'P' :: (optPart 'D' d ++ timeBlock t)) :
    (∀ ds, d = some ds → digitsVal ds > i64Max →
      parse_duration s = durationSum 0 (timeValH t) (timeValM t) (timeValS t)) ∧
    (∀ ho mo so ds, t = some (ho, mo, so) → ho = some ds → digitsVal ds > i64Max →
      parse_duration s = durationSum (compVal d) 0 (compVal mo) (compVal so)) ∧
    (∀ ho mo so ds, t = some (ho, mo, so) → mo = some ds → digitsVal ds > i64Max →
      parse_duration s = durationSum (compVal d) (compVal ho) 0 (compVal so)) ∧
    (∀ ho mo so ds, t = some (ho, mo, so) → so = some ds → digitsVal ds > i64Max →
      parse_duration s = durationSum (compVal d) (compVal ho) (compVal mo) 0) := by
  have he := parse_duration_grammar_eval s d t hd ht hsd
  refine ⟨?_, ?_, ?_, ?_⟩
  · intro ds hds hov
    rw [he, hds]
    have hz : compVal (some ds) = 0 := by
      simp only [compVal, parseI64orZero]
      rw [if_neg (not_le.mpr hov)]
    rw [hz]
  · intro ho mo so ds hts hds hov
    rw [he, hts]
    have hz : compVal ho = 0 := by
      rw [hds]
      simp only [compVal, parseI64orZero]
      rw [if_neg (not_le.mpr hov)]
    simp [timeValH, timeValM, timeValS, hz]
  · intro ho mo so ds hts hds hov
    rw [he, hts]
    have hz : compVal mo = 0 := by
      rw [hds]
      simp only [compVal, parseI64orZero]
      rw [if_neg (not_le.mpr hov)]
    simp [timeValH, timeValM, timeValS, hz]
  · intro ho mo so ds hts hds hov
    rw [he, hts]
    have hz : compVal so = 0 := by
      rw [hds]
      simp only [compVal, parseI64orZero]
      rw [if_neg (not_le.mpr hov)]
    simp [timeValH, timeValM, timeValS, hz]

/-- C10 witness: a twenty-digit day count alone is zeroed and yields the
successful zero span. -/
theorem c10_witness : parse_duration "P99999999999999999999D" = .ok 0 := by
  have h := (c10_overflow_component_zeroed "P99999999999999999999D"
    (some ("99999999999999999999".data)) none ⟨by decide, by decide⟩ trivial (by decide)).1
    ("99999999999999999999".data) rfl (by decide)
  rw [h]
  rfl

/-- C3 (confirmed): the built event's recurrence field is non-absent exactly
when an `RRULE` property with a value appears in the list: DTSTART alone
only buffers a line, while DTSTART with RRULE yields an assembled
specification. -/
theorem c3_rrule_gates_recurrence (lt : NaiveDateTime → MappedLocal NaiveDateTime)
    (dp : String → Except Err NaiveDateTime) (rp : String → Except Err RRuleSet)
    (ps : List IcalProp) (e : Event) (h : map_ical_event lt dp rp ps = .ok e) :
    e.rrule.isSome = hasValuedRRule ps := by
  obtain ⟨a, b, _⟩ := map_ical_event_char lt dp rp ps e h
  cases hr : hasValuedRRule ps with
  | false => rw [a hr]; rfl
  | true =>
    obtain ⟨r, _, h2⟩ := b hr
    rw [h2]
    rfl

/-- C3 witness: with DTSTART and RRULE present the recurrence field is
non-absent. -/
theorem c3_witness : c3event.rrule.isSome = hasValuedRRule c3props :=
  c3_rrule_gates_recurrence utcLocalTz noFallback okRRule c3props c3event (by rfl)

/-- C4 (confirmed): a valued property with an unrecognized name (not a
handled token, not `X-`-prefixed) means no event is ever returned, and
when every property before it processes cleanly, the failure is the
unknown-property error carrying that name. -/
theorem c4_unknown_property_fails (lt : NaiveDateTime → MappedLocal NaiveDateTime)
    (dp : String → Except Err NaiveDateTime) (rp : String → Except Err RRuleSet)
    (l r : List IcalProp) (p : IcalProp)
    (hv : p.value.isSome = true) (hu : isUnknownKey p.name = true) :
    isOkE (map_ical_event lt dp rp (l ++ p :: r)) = false ∧
    ((∀ q ∈ l, propOk lt dp q = true) →
      map_ical_event lt dp rp (l ++ p :: r) = .error (.unknownKey p.name)) := by
  obtain ⟨v, hv2⟩ := Option.isSome_iff_exists.mp hv
  have hk := isUnknownKey_kind hu
  constructor
  · unfold map_ical_event
    cases hb : buildLoop lt dp initState (l ++ p :: r) with
    | error e => rfl
    | ok st => exact absurd hb (buildLoop_unknown_never_ok lt dp p v hv2 hk l r initState st)
  · intro hl
    unfold map_ical_event
    rw [buildLoop_unknown_firstErr lt dp p v hv2 hk l r initState hl]

/-- C4 witness: `UID` then `FOO` yields the unknown-property error for
`FOO` and no event. -/
theorem c4_witness :
    isOkE (map_ical_event utcLocalTz noFallback okRRule (c4before ++ c4unknown :: [])) = false ∧
    map_ical_event utcLocalTz noFallback okRRule (c4before ++ c4unknown :: []) =
      .error (.unknownKey "FOO") := by
  have h := c4_unknown_property_fails utcLocalTz noFallback okRRule c4before [] c4unknown
    (by rfl) (by rfl)
  exact ⟨h.1, h.2 (by decide)⟩

/-- C7 (confirmed): every plain-string scalar field of a successfully built
event holds the value of the last valued occurrence of its key, in list
order (last write wins). -/
theorem c7_last_write_wins (lt : NaiveDateTime → MappedLocal NaiveDateTime)
    (dp : String → Except Err NaiveDateTime) (rp : String → Except Err RRuleSet)
    (ps : List IcalProp) (e : Event) (h : map_ical_event lt dp rp ps = .ok e) :
    e.summary = (valuedValues "SUMMARY" ps).getLast? ∧
    e.uid = (valuedValues "UID" ps).getLast? ∧
    e.location = (valuedValues "LOCATION" ps).getLast? ∧
    e.description = (valuedValues "DESCRIPTION" ps).getLast? ∧
    e.organizer = (valuedValues "ORGANIZER" ps).getLast? ∧
    e.comment = (valuedValues "COMMENT" ps).getLast? := by
  obtain ⟨_, _, h3, h4, h5, h6, h7, h8, _⟩ := map_ical_event_char lt dp rp ps e h
  exact ⟨h4, h3, h5, h6, h7, h8⟩

/-- C7 witness: given SUMMARY `"first"` then `"second"`, the built summary
is the last occurrence. -/
theorem c7_witness :
    c7event.summary = (valuedValues "SUMMARY" c7props).getLast? ∧
    c7event.uid = (valuedValues "UID" c7props).getLast? ∧
    c7event.location = (valuedValues "LOCATION" c7props).getLast? ∧
    c7event.description = (valuedValues "DESCRIPTION" c7props).getLast? ∧
    c7event.organizer = (valuedValues "ORGANIZER" c7props).getLast? ∧
    c7event.comment = (valuedValues "COMMENT" c7props).getLast? :=
  c7_last_write_wins utcLocalTz noFallback okRRule c7props c7event (by rfl)

/-- C8 (confirmed): each multi-valued field of a successfully built event is
exactly the sequence of that key's values in original list order with
duplicates retained (absent when no occurrence has a value). -/
theorem c8_multi_valued_order (lt : NaiveDateTime → MappedLocal NaiveDateTime)
    (dp : String → Except Err NaiveDateTime) (rp : String → Except Err RRuleSet)
    (ps : List IcalProp) (e : Event) (h : map_ical_event lt dp rp ps = .ok e) :
    e.categories = optOfList (valuedValues "CATEGORIES" ps) ∧
    e.attendees = optOfList (valuedValues "ATTENDEE" ps) ∧
    e.attach = optOfList (valuedValues "ATTACH" ps) ∧
    e.alarms = optOfList (valuedValues "ALARM" ps) := by
  obtain ⟨_, _, _, _, _, _, _, _, h9, h10, h11, h12⟩ := map_ical_event_char lt dp rp ps e h
  exact ⟨h9, h10, h11, h12⟩

/-- C8 witness: CATEGORIES `A`, `B`, `A` yields exactly that sequence. -/
theorem c8_witness :
    c8event.categories = optOfList (valuedValues "CATEGORIES" c8props) ∧
    c8event.attendees = optOfList (valuedValues "ATTENDEE" c8props) ∧
    c8event.attach = optOfList (valuedValues "ATTACH" c8props) ∧
    c8event.alarms = optOfList (valuedValues "ALARM" c8props) :=
  c8_multi_valued_order utcLocalTz noFallback okRRule c8props c8event (by rfl)

/-- C9 (confirmed): removing every property whose name starts with `X-` or
is `TRANSP` or `CLASS` leaves the builder's result unchanged — so such
properties never cause failure and never alter any field of the built
event. -/
theorem c9_benign_frame (lt : NaiveDateTime → MappedLocal NaiveDateTime)
    (dp : String → Except Err NaiveDateTime) (rp : String → Except Err RRuleSet)
    (ps : List IcalProp) :
    map_ical_event lt dp rp (ps.filter (fun p => !(benignKey p.name))) =
      map_ical_event lt dp rp ps := by
  unfold map_ical_event
  rw [buildLoop_filter_benign]

end IcalProperty2Proof
